import Mathlib

/-!
Verification of the Filmhub EPK generator (`api/epk_core.py`).

The Python module is shallowly embedded below.  Conventions of the embedding:

* A JSON configuration field that may be missing is modelled by its falsy
  default (`""` for strings, `[]` for lists): `validate_assets` and the
  HTML generators only test values for Python truthiness, so a missing key
  and a present-but-falsy value behave identically in the code paths the
  claims are about.  The `distribution` sub-dict is `Option` because the
  code tests the dict itself for truthiness.
* File systems are represented by explicit directory listings:
  a directory that may not exist is `Option (List _)`.
  `PIL.Image.open` either yields pixel dimensions or raises; this is
  `Except String (Nat × Nat)` where the error carries the exception text.
* Paths are lists of components.  `Path.resolve().as_uri()` of an absolute
  path `/a/b/c` is modelled by `fileUri` producing `file:///a/b/c`;
  `Path("../../") / rel` is modelled by `"../../" ++ joinPath rel`.
* `PIL_AVAILABLE` is the `pil` parameter threaded through `validate_assets`.
-/

set_option maxRecDepth 8192

namespace EPK

/-! ## String primitives

The Python operations `in` (substring), `str.startswith`, `str.lower`, and path splitting
are implemented on the character lists underlying `String`. -/

/-- Prefix test: `lStarts pat l` is true when the character list `l` begins with `pat`
(the list analogue of the Python `str.startswith`). -/
def lStarts : List Char → List Char → Bool
  | [], _ => true
  | _ :: _, [] => false
  | a :: as, b :: bs => a == b && lStarts as bs

/-- Substring test: `lHasSub pat l` is true when `pat` occurs contiguously inside `l`
(the list analogue of the Python `in` on strings). -/
def lHasSub (pat : List Char) : List Char → Bool
  | [] => pat.isEmpty
  | b :: bs => lStarts pat (b :: bs) || lHasSub pat bs

/-- Python `s.startswith(pat)`, as `strStarts pat s`. -/
def strStarts (pat s : String) : Bool := lStarts pat.data s.data

/-- Python `pat in s`, as `strHasSub s pat`. -/
def strHasSub (s pat : String) : Bool := lHasSub pat.data s.data

/-- Python `str.lower`, character-wise (ASCII case folding, which is all
the genre table needs). -/
def pyLower (s : String) : String := String.mk (s.data.map Char.toLower)

/-- Split a relative path string on `'/'` (how `Path` decomposes the
`photo` strings of the configuration into components). -/
def splitSlashAux : List Char → List Char → List String
  | acc, [] => [String.mk acc.reverse]
  | acc, c :: rest =>
    if c = '/' then String.mk acc.reverse :: splitSlashAux [] rest
    else splitSlashAux (c :: acc) rest

/-- Path components of a (relative) path string. -/
def splitPath (s : String) : List String := splitSlashAux [] s.data

/-- Join path components with `/` (Python `str(Path(...))` of a relative
path built from the components). -/
def joinPath : List String → String
  | [] => ""
  | [c] => c
  | c :: rest => c ++ "/" ++ joinPath rest

/-- The path part of a `file://` URI for an absolute path with the given
components: `/c₀/c₁/…`. -/
def uriPath : List String → String
  | [] => ""
  | c :: rest => "/" ++ c ++ uriPath rest

/-- Models `Path.resolve().as_uri()` for an absolute path given by components. -/
def fileUri (comps : List String) : String := "file://" ++ uriPath comps

/-- Lexicographic order on character lists (the Python `<=` on strings,
as used by `sorted`). -/
def lexLe : List Char → List Char → Bool
  | [], _ => true
  | _ :: _, [] => false
  | a :: as, b :: bs =>
    if a.val < b.val then true
    else if b.val < a.val then false
    else lexLe as bs

/-- Python `int(s)` on a digit run, `none` on a malformed run.  Underscores
are permitted singly between digits (the CPython grammar for `int` literals
from strings); any other character — in particular the `.` of `"4.5"` —
fails. -/
def pyIntDigitsAux : List Char → Bool → Bool → Bool
  | [], seenDigit, lastWasDigit => seenDigit && lastWasDigit
  | c :: rest, seenDigit, lastWasDigit =>
    if c.isDigit then pyIntDigitsAux rest true true
    else if c = '_' then lastWasDigit && pyIntDigitsAux rest seenDigit false
    else false

/-- Numeric value of a digit-and-underscore run. -/
def pyDigitsVal : List Char → Nat → Nat
  | [], acc => acc
  | c :: rest, acc =>
    if c.isDigit then pyDigitsVal rest (acc * 10 + (c.toNat - '0'.toNat))
    else pyDigitsVal rest acc

/-- Python `int(s)`: strip surrounding whitespace, optional sign, digit run;
`none` models `ValueError`. -/
def pyInt (s : String) : Option Int :=
  let core := (s.data.dropWhile Char.isWhitespace).reverse.dropWhile Char.isWhitespace |>.reverse
  match core with
  | '+' :: rest => if pyIntDigitsAux rest false false then some (pyDigitsVal rest 0) else none
  | '-' :: rest => if pyIntDigitsAux rest false false then some (-(pyDigitsVal rest 0 : Int)) else none
  | rest => if pyIntDigitsAux rest false false then some (pyDigitsVal rest 0) else none

/-- Python `s * n` for a string and an integer (negative counts yield `""`). -/
def strRepeat (s : String) : Int → String
  | .negSucc _ => ""
  | .ofNat n => String.mk (List.flatten (List.replicate n s.data))

/-! ## Data model (`film_config.json` and the asset tree) -/

/-- A color triple of `GENRE_COLORS` / `DEFAULT_COLORS`. -/
structure Colors where
  primary : String
  secondary : String
  accent : String
deriving Repr, DecidableEq

/-- The `metadata` section.  Missing keys are `""`. -/
structure Metadata where
  title : String := ""
  tagline : String := ""
  logline : String := ""
  synopsis : String := ""
  genre : String := ""
  runtime : String := ""
  rating : String := ""
  language : String := ""
  country : String := ""
  release_date : String := ""
deriving Repr, DecidableEq

/-- One `team` entry. -/
structure Member where
  name : String := ""
  role : String := ""
  bio : String := ""
  photo : String := ""
deriving Repr, DecidableEq

/-- One `awards` entry. -/
structure Award where
  festival_name : String := ""
  award : String := ""
  year : String := ""
deriving Repr, DecidableEq

/-- One `festivals` entry. -/
structure Festival where
  festival_name : String := ""
  year : String := ""
  selection_type : String := ""
deriving Repr, DecidableEq

/-- One `reviews` entry. -/
structure Review where
  quote : String := ""
  source : String := ""
  rating : String := ""
deriving Repr, DecidableEq

/-- One `press_coverage` entry. -/
structure PressItem where
  title : String := ""
  publication : String := ""
  date : String := ""
  url : String := ""
  excerpt : String := ""
deriving Repr, DecidableEq

/-- The `distribution` sub-dict (present and non-empty). -/
structure DistInfo where
  theatrical_release : String := ""
  digital_release : String := ""
  platforms : List String := []
deriving Repr, DecidableEq

/-- The `technical` sub-dict.  Missing keys are `""`. -/
structure TechInfo where
  aspect_ratio : String := ""
  sound : String := ""
  color : String := ""
deriving Repr, DecidableEq

/-- The `contact` section. -/
structure Contact where
  distribution_company : String := ""
  name : String := ""
  email : String := ""
  phone : String := ""
  website : String := ""
deriving Repr, DecidableEq

/-- A loaded film configuration (`self.config`). -/
structure Config where
  metadata : Metadata := {}
  team : List Member := []
  awards : List Award := []
  festivals : List Festival := []
  reviews : List Review := []
  press_coverage : List PressItem := []
  distribution : Option DistInfo := none
  technical : TechInfo := {}
  contact : Contact := {}
deriving Repr, DecidableEq

/-- An image file in a directory listing: its filename and the result of
`PIL.Image.open(...)` reading `(width, height)`, or the text of the raised
exception. -/
structure ImgFile where
  name : String
  dims : Except String (Nat × Nat) := .error "cannot identify image file"
deriving Repr

instance instDecEqExcept {α β : Type} [DecidableEq α] [DecidableEq β] :
    DecidableEq (Except α β) := fun x y =>
  match x, y with
  | .error a, .error b => decidable_of_iff (a = b) (by simp)
  | .error _, .ok _ => isFalse (fun h => Except.noConfusion h)
  | .ok _, .error _ => isFalse (fun h => Except.noConfusion h)
  | .ok a, .ok b => decidable_of_iff (a = b) (by simp)

instance : DecidableEq ImgFile := fun a b =>
  decidable_of_iff (a.name = b.name ∧ a.dims = b.dims) (by cases a; cases b; simp)

/-- A file under `assets/downloads`: filename and `stat().st_size` in bytes. -/
structure DownloadFile where
  name : String
  size : Nat := 0
deriving Repr, DecidableEq

/-- The asset tree of a project.  `none` models a directory that does not
exist.  `existingFiles` lists the project-root-relative paths for which
`Path.exists()` holds (used for team photos). -/
structure Assets where
  postersDir : Option (List ImgFile) := none
  stillsDir : Option (List ImgFile) := none
  downloadsDir : Option (List DownloadFile) := none
  existingFiles : List String := []
deriving Repr

/-- The `ValidationResult` dataclass. -/
structure ValidationResult where
  is_valid : Bool
  errors : List String
  warnings : List String
deriving Repr, DecidableEq

/-! ## Validator (`EPKGenerator.validate_assets`) -/

/-- The glob pattern `*.[jp][pn][g]` on a filename: some stem (globbing
hides names that start with a dot), a literal dot, then one character from
each of `[jp]`, `[pn]`, `[g]`. -/
def matchesImgGlob (name : String) : Bool :=
  (!lStarts ['.'] name.data) &&
  (match name.data.reverse with
   | c3 :: c2 :: c1 :: '.' :: _ =>
     (c1 == 'j' || c1 == 'p') && (c2 == 'p' || c2 == 'n') && c3 == 'g'
   | _ => false)

/-- Image files of the posters directory matched by `*.[jp][pn][g]`
(empty when the directory does not exist). -/
def posterMatches (a : Assets) : List ImgFile :=
  match a.postersDir with
  | none => []
  | some fs => fs.filter (fun f => matchesImgGlob f.name)

/-- Image files of the stills directory matched by `*.[jp][pn][g]`. -/
def stillMatches (a : Assets) : List ImgFile :=
  match a.stillsDir with
  | none => []
  | some fs => fs.filter (fun f => matchesImgGlob f.name)

/-- The `for field, label in required_fields.items()` loop: one error per
falsy required metadata field, in table order. -/
def requiredFieldErrors (m : Metadata) : List String :=
  [(m.title, "Film title"), (m.logline, "Logline"), (m.synopsis, "Synopsis"),
   (m.genre, "Genre"), (m.runtime, "Runtime")].filterMap
    (fun p => if p.1 = "" then some ("Missing required field: " ++ p.2) else none)

/-- The poster block of `validate_assets`: the error when no poster
matches, else (with PIL) the resolution warning on the first match. -/
def posterChecks (a : Assets) (pil : Bool) : List String × List String :=
  match a.postersDir with
  | none => (["Poster image required (JPG or PNG)"], [])
  | some fs =>
    match fs.filter (fun f => matchesImgGlob f.name) with
    | [] => (["Poster image required (JPG or PNG)"], [])
    | f :: _ =>
      if pil then
        match f.dims with
        | .error e => ([], ["Could not validate poster: " ++ e])
        | .ok (w, h) =>
          if w < 1000 || h < 1500 then
            ([], ["Poster resolution low (" ++ toString w ++ "x" ++ toString h ++
                  "px). Recommended: 2000x3000px"])
          else ([], [])
      else ([], [])

/-- Is a sampled still offending: its dimensions are readable and its width
is below 1280 (an unreadable still is skipped by the `except: pass`). -/
def stillOffending (f : ImgFile) : Bool :=
  match f.dims with
  | .ok (w, _) => w < 1280
  | .error _ => false

/-- The low-resolution warning text for a still. -/
def lowResMsg (f : ImgFile) : String :=
  "Still \x27" ++ f.name ++ "\x27 resolution low. Recommended: 1920x1080px"

/-- The `for still in stills[:3]` loop: warn on the first offending still
and `break`; `except: pass` skips unreadable ones. -/
def stillsLoop : List ImgFile → Option String
  | [] => none
  | f :: rest =>
    match f.dims with
    | .ok (w, _) => if w < 1280 then some (lowResMsg f) else stillsLoop rest
    | .error _ => stillsLoop rest

/-- The stills block of `validate_assets` (warnings only). -/
def stillsChecks (a : Assets) (pil : Bool) : List String :=
  match a.stillsDir with
  | none => ["No production stills folder found"]
  | some fs =>
    let stills := fs.filter (fun f => matchesImgGlob f.name)
    (if stills.length < 8 then
       ["Only " ++ toString stills.length ++ " stills found. Recommended: 8-12"]
     else [])
    ++ (if pil && !stills.isEmpty then (stillsLoop (stills.take 3)).toList else [])

/-- Embeds `EPKGenerator.validate_assets`: required fields, poster, stills,
contact email and synopsis-length checks, in source order; `is_valid` is
`len(errors) == 0`. -/
def validate_assets (cfg : Config) (a : Assets) (pil : Bool) : ValidationResult :=
  let meta := cfg.metadata
  let errors :=
    requiredFieldErrors meta
    ++ (posterChecks a pil).1
    ++ (if cfg.contact.email = "" then ["Contact email required"] else [])
  let warnings :=
    (posterChecks a pil).2
    ++ stillsChecks a pil
    ++ (if meta.synopsis ≠ "" ∧ meta.synopsis.length < 200 then
          ["Synopsis is short (" ++ toString meta.synopsis.length ++
           " chars). Recommended: 200-400 words"]
        else [])
  { is_valid := errors.isEmpty, errors := errors, warnings := warnings }

/-! ## Renderer (`EPKGenerator.generate_html` and its section generators) -/

/-- Embeds `EPKGenerator.GENRE_COLORS`, in dict insertion order. -/
def GENRE_COLORS : List (String × Colors) :=
  [("horror", ⟨"#8B0000", "#2C2C2C", "#FF4444"⟩),
   ("sci-fi", ⟨"#1E3A8A", "#0F172A", "#60A5FA"⟩),
   ("fantasy", ⟨"#7C3AED", "#1E1B4B", "#A78BFA"⟩),
   ("comedy", ⟨"#F59E0B", "#78350F", "#FBBF24"⟩),
   ("drama", ⟨"#374151", "#1F2937", "#9CA3AF"⟩),
   ("action", ⟨"#DC2626", "#18181B", "#EF4444"⟩),
   ("documentary", ⟨"#059669", "#064E3B", "#10B981"⟩),
   ("romance", ⟨"#DB2777", "#831843", "#F472B6"⟩),
   ("thriller", ⟨"#4B5563", "#111827", "#6B7280"⟩)]

/-- Embeds `EPKGenerator.DEFAULT_COLORS`. -/
def DEFAULT_COLORS : Colors := ⟨"#2563EB", "#1E293B", "#3B82F6"⟩

/-- The `for key, colors in self.GENRE_COLORS.items()` loop of
`_get_colors_for_genre`: first key that is a substring of the genre wins. -/
def genreLookup : List (String × Colors) → String → Colors
  | [], _ => DEFAULT_COLORS
  | (key, colors) :: rest, genre =>
    if strHasSub genre key then colors else genreLookup rest genre

/-- Embeds `EPKGenerator._get_colors_for_genre` (the caller passes the genre
already lower-cased). -/
def get_colors_for_genre (genre : String) : Colors := genreLookup GENRE_COLORS genre

/-- Embeds `EPKGenerator._generate_css`: the style sheet with the theme colors
interpolated (literal braces appear as `\x7b`/`\x7d`). -/
def generate_css (colors : Colors) : String :=
  "\n* \x7b\n    margin: 0;\n    padding: 0;\n    box-sizing: border-box;\n\x7d\n\nbody \x7b\n    font-family: -apple-system, BlinkMacSystemFont, \x27Segoe UI\x27, Roboto, \x27Helvetica Neue\x27, Arial, sans-serif;\n    line-height: 1.6;\n    color: #1F2937;\n    background: #F9FAFB;\n\x7d\n\n.container \x7b\n    max-width: 1200px;\n    margin: 0 auto;\n\x7d\n\n.section \x7b\n    padding: 40px 20px;\n    background: white;\n    margin-bottom: 2px;\n\x7d\n\n/* Cover Section */\n.cover \x7b\n    min-height: 500px;\n    display: flex;\n    align-items: center;\n    justify-content: center;\n    background: linear-gradient(135deg, "
  ++ colors.secondary
  ++ " 0%, "
  ++ colors.primary
  ++ " 100%);\n    color: white;\n    text-align: center;\n    padding: 40px 20px;\n    page-break-inside: avoid;\n\x7d\n\n.cover-content \x7b\n    max-width: 900px;\n    page-break-inside: avoid;\n\x7d\n\n.poster-container \x7b\n    max-width: 400px;\n    margin: 0 auto 20px;\n    page-break-inside: avoid;\n    page-break-after: avoid;\n\x7d\n\n.poster-container img \x7b\n    width: 100%;\n    height: auto;\n    border-radius: 8px;\n    display: block;\n\x7d\n\n.film-title \x7b\n    font-size: 3.5rem;\n    font-weight: 800;\n    margin-bottom: 15px;\n    text-transform: uppercase;\n    letter-spacing: -1px;\n    line-height: 1.1;\n    page-break-before: avoid;\n    page-break-after: avoid;\n\x7d\n\n.tagline \x7b\n    font-size: 1.3rem;\n    margin-bottom: 20px;\n    opacity: 0.9;\n    font-style: italic;\n    page-break-before: avoid;\n\x7d\n\n.film-meta \x7b\n    font-size: 1.1rem;\n    margin-top: 15px;\n    opacity: 0.9;\n    page-break-before: avoid;\n\x7d\n\n.laurels \x7b\n    display: flex;\n    flex-wrap: wrap;\n    justify-content: center;\n    margin-top: 40px;\n\x7d\n\n.laurel \x7b\n    background: rgba(255, 255, 255, 0.1);\n    padding: 15px 25px;\n    border-radius: 8px;\n    font-size: 0.9rem;\n    border: 1px solid rgba(255, 255, 255, 0.2);\n    margin: 10px;\n\x7d\n\n.laurel-title \x7b\n    font-weight: 700;\n    display: block;\n    margin-bottom: 5px;\n\x7d\n\n/* Typography */\nh2 \x7b\n    font-size: 2.5rem;\n    margin-bottom: 20px;\n    color: "
  ++ colors.primary
  ++ ";\n    text-align: center;\n    font-weight: 700;\n\x7d\n\nh3 \x7b\n    font-size: 1.8rem;\n    color: "
  ++ colors.primary
  ++ ";\n    margin-bottom: 20px;\n\x7d\n\n.logline \x7b\n    font-size: 1.3rem;\n    font-weight: 600;\n    text-align: center;\n    max-width: 800px;\n    margin: 0 auto 30px;\n    color: "
  ++ colors.primary
  ++ ";\n    line-height: 1.8;\n\x7d\n\n.synopsis-text \x7b\n    font-size: 1.1rem;\n    max-width: 800px;\n    margin: 0 auto;\n    line-height: 1.9;\n    text-align: justify;\n\x7d\n\n/* Reviews Section */\n.reviews \x7b\n    background: "
  ++ colors.secondary
  ++ ";\n    color: white;\n\x7d\n\n.reviews h2 \x7b\n    color: white;\n\x7d\n\n.review-grid \x7b\n    max-width: 1000px;\n    margin: 0 auto;\n\x7d\n\n.review-card \x7b\n    background: rgba(255, 255, 255, 0.05);\n    padding: 30px;\n    border-radius: 8px;\n    border-left: 4px solid "
  ++ colors.accent
  ++ ";\n    margin-bottom: 20px;\n\x7d\n\n.review-quote \x7b\n    font-size: 1.2rem;\n    font-style: italic;\n    margin-bottom: 15px;\n    line-height: 1.6;\n\x7d\n\n.review-source \x7b\n    font-weight: 600;\n    font-size: 1rem;\n    opacity: 0.9;\n\x7d\n\n.review-rating \x7b\n    color: "
  ++ colors.accent
  ++ ";\n    margin-bottom: 10px;\n    font-size: 1.1rem;\n\x7d\n\n/* Team Section */\n.team-grid \x7b\n    max-width: 800px;\n    margin: 0 auto;\n    display: flex;\n    flex-wrap: wrap;\n    justify-content: center;\n    gap: 40px 60px;\n    text-align: center;\n    margin-top: 0;\n\x7d\n\n.team-member \x7b\n    width: 280px;\n    flex-shrink: 0;\n    display: flex;\n    flex-direction: column;\n    align-items: center;\n\x7d\n\n.team-photo \x7b\n    width: 200px;\n    height: 200px;\n    border-radius: 50%;\n    object-fit: cover;\n    margin: 0 auto 20px;\n    display: block;\n    border: 4px solid "
  ++ colors.accent
  ++ ";\n    object-position: center;\n\x7d\n\n.member-name \x7b\n    font-size: 1.3rem;\n    font-weight: 700;\n    margin-bottom: 5px;\n    color: "
  ++ colors.primary
  ++ ";\n\x7d\n\n.member-role \x7b\n    font-size: 1rem;\n    color: #6B7280;\n    margin-bottom: 15px;\n    text-transform: uppercase;\n    letter-spacing: 1px;\n    font-weight: 600;\n\x7d\n\n.member-bio \x7b\n    font-size: 0.95rem;\n    line-height: 1.6;\n    text-align: left;\n    color: #4B5563;\n\x7d\n\n/* Gallery */\n.stills-gallery \x7b\n    margin: 0 -10px;\n\x7d\n\n.still-img \x7b\n    width: 32%;\n    height: 250px;\n    object-fit: cover;\n    border-radius: 8px;\n    margin: 10px 0.5%;\n    display: inline-block;\n    vertical-align: top;\n\x7d\n\n/* Technical Specs */\n.tech-specs \x7b\n    background: #F3F4F6;\n    padding: 30px;\n    border-radius: 8px;\n    max-width: 700px;\n    margin: 0 auto;\n\x7d\n\n.spec-row \x7b\n    display: flex;\n    justify-content: space-between;\n    padding: 15px 0;\n    border-bottom: 1px solid #D1D5DB;\n\x7d\n\n.spec-row:last-child \x7b\n    border-bottom: none;\n\x7d\n\n.spec-label \x7b\n    font-weight: 600;\n    color: "
  ++ colors.primary
  ++ ";\n\x7d\n\n.spec-value \x7b\n    color: #374151;\n\x7d\n\n/* Contact Section */\n.contact \x7b\n    background: "
  ++ colors.primary
  ++ ";\n    color: white;\n    text-align: center;\n\x7d\n\n.contact h2 \x7b\n    color: white;\n\x7d\n\n.contact-info \x7b\n    font-size: 1.2rem;\n    margin: 20px 0;\n\x7d\n\n.contact-info p \x7b\n    margin: 10px 0;\n\x7d\n\n.contact-link \x7b\n    color: white;\n    text-decoration: none;\n    border-bottom: 2px solid "
  ++ colors.accent
  ++ ";\n    padding-bottom: 2px;\n\x7d\n\n.contact-link:hover \x7b\n    opacity: 0.8;\n\x7d\n\n/* Print Styles */\n@media print \x7b\n    .cover \x7b\n        page-break-after: always;\n    \x7d\n    \n    .section \x7b\n        page-break-inside: avoid;\n    \x7d\n\x7d\n"

/-- The asset-reference pattern repeated at the four emission sites
(poster, team photo, still, download): `Path.resolve().as_uri()` of the
absolute path when `for_pdf`, else `Path("../../") / rel`. -/
def resolveRef (forPdf : Bool) (projectDir rel : List String) : String :=
  if forPdf then fileUri (projectDir ++ rel) else "../../" ++ joinPath rel

/-- The poster reference of `_generate_cover` (`None` when the posters
directory is missing or holds no glob match). -/
def posterRef (a : Assets) (projectDir : List String) (forPdf : Bool) : Option String :=
  match posterMatches a with
  | [] => none
  | f :: _ => some (resolveRef forPdf projectDir ["assets", "images", "posters", f.name])

/-- The team-photo reference of `_generate_team`: only for a truthy
`photo` value whose file exists. -/
def teamPhotoRef (a : Assets) (projectDir : List String) (forPdf : Bool) (m : Member) : Option String :=
  if m.photo ≠ "" ∧ m.photo ∈ a.existingFiles then
    some (resolveRef forPdf projectDir (splitPath m.photo))
  else none

/-- Insertion step of `sorted` on filenames. -/
def insertByName (f : ImgFile) : List ImgFile → List ImgFile
  | [] => [f]
  | g :: gs => if lexLe f.name.data g.name.data then f :: g :: gs else g :: insertByName f gs

/-- Models `sorted(...)` of image files by filename. -/
def sortByName (l : List ImgFile) : List ImgFile := l.foldr insertByName []

/-- Embeds `sorted(stills_dir.glob("*.[jp][pn][g]"))[:12]` of `_generate_gallery`. -/
def galleryStills (a : Assets) : List ImgFile := (sortByName (stillMatches a)).take 12

/-- A still reference of `_generate_gallery`. -/
def stillRef (projectDir : List String) (forPdf : Bool) (f : ImgFile) : String :=
  resolveRef forPdf projectDir ["assets", "images", "stills", f.name]

/-- Embeds `downloads_dir.glob("*")` of `_generate_downloads` (globbing hides
dotfiles). -/
def downloadFiles (a : Assets) : List DownloadFile :=
  match a.downloadsDir with
  | none => []
  | some fs => fs.filter (fun f => !lStarts ['.'] f.name.data)

/-- A download reference of `_generate_downloads`. -/
def downloadRef (projectDir : List String) (forPdf : Bool) (f : DownloadFile) : String :=
  resolveRef forPdf projectDir ["assets", "downloads", f.name]

/-- Every asset reference `generate_html` interpolates into the document,
in document order: the cover poster, the team photos, the gallery stills
and the download files. -/
def assetRefs (cfg : Config) (a : Assets) (projectDir : List String) (forPdf : Bool) : List String :=
  (posterRef a projectDir forPdf).toList
  ++ cfg.team.filterMap (teamPhotoRef a projectDir forPdf)
  ++ (galleryStills a).map (stillRef projectDir forPdf)
  ++ (downloadFiles a).map (downloadRef projectDir forPdf)

/-- One laurel of the cover / awards laurels loops. -/
def laurelHtml (aw : Award) : String :=
  "\n                <div class=\"laurel\">\n                    <span class=\"laurel-title\">"
  ++ aw.award
  ++ "</span>\n                    "
  ++ aw.festival_name ++ " " ++ aw.year
  ++ "\n                </div>\n                "

/-- The `laurels_html` variable of `_generate_cover`: laurels are shown on
the cover only when awards exist and the document is not rendered for PDF. -/
def laurelsHtml (awards : List Award) (forPdf : Bool) : String :=
  if awards ≠ [] ∧ forPdf = false then
    "<div class=\"laurels\">" ++ String.join (awards.map laurelHtml) ++ "</div>"
  else ""

/-- Embeds `EPKGenerator._generate_cover`. -/
def generate_cover (cfg : Config) (a : Assets) (projectDir : List String) (forPdf : Bool) : String :=
  let meta := cfg.metadata
  let awards := cfg.awards.take 4
  let posterHtml :=
    match posterRef a projectDir forPdf with
    | some p => "<img src=\"" ++ p ++ "\" alt=\"Poster\">"
    | none => ""
  let titleMargin := if forPdf then "margin-bottom: 10px;" else ""
  let taglineMargin := if forPdf then "margin-bottom: 15px;" else ""
  let metaMargin := if forPdf then "margin-top: 10px;" else ""
  "\n        <div class=\"cover\">\n            <div class=\"cover-content\">\n                <div class=\"poster-container\">\n                    "
  ++ posterHtml
  ++ "\n                </div>\n                <h1 class=\"film-title\" style=\""
  ++ titleMargin ++ "\">" ++ meta.title
  ++ "</h1>\n                "
  ++ (if meta.tagline ≠ "" then
        "<p class=\"tagline\" style=\"" ++ taglineMargin ++ "\">" ++ meta.tagline ++ "</p>"
      else "")
  ++ "\n                <p class=\"film-meta\" style=\"" ++ metaMargin
  ++ "\">\n                    "
  ++ meta.genre ++ " | " ++ meta.runtime ++ " | "
  ++ (if meta.rating = "" then "NR" else meta.rating)
  ++ "\n                </p>\n                "
  ++ laurelsHtml awards forPdf
  ++ "\n            </div>\n        </div>\n        "

/-- Python `str.strip()`. -/
def pyStrip (s : String) : String :=
  String.mk ((s.data.dropWhile Char.isWhitespace).reverse.dropWhile Char.isWhitespace).reverse

/-- Embeds `EPKGenerator._format_paragraphs`. -/
def format_paragraphs (text : String) : String :=
  String.join ((((text.splitOn "\n\n").map pyStrip).filter (· ≠ "")).map
    (fun p => "<p style=\"margin-bottom: 20px;\">" ++ p ++ "</p>"))

/-- Embeds `EPKGenerator._generate_synopsis`. -/
def generate_synopsis (cfg : Config) : String :=
  let meta := cfg.metadata
  "\n        <div class=\"section\">\n            <h2>Synopsis</h2>\n            <p class=\"logline\">"
  ++ meta.logline
  ++ "</p>\n            <div class=\"synopsis-text\">\n                "
  ++ format_paragraphs meta.synopsis
  ++ "\n            </div>\n        </div>\n        "

/-- One review card; `int(review.get("rating", "0"))` raises `ValueError`
on a truthy rating string that is not an integer literal, modelled as
`Except.error` with the `ValueError` text. -/
def reviewCard (r : Review) : Except String String :=
  match (if r.rating ≠ "" then
           match pyInt r.rating with
           | none =>
             Except.error ("invalid literal for int() with base 10: \x27" ++ r.rating ++ "\x27")
           | some n =>
             Except.ok ("<div class=\"review-rating\">" ++ strRepeat "â˜…" n ++ "</div>")
         else Except.ok "") with
  | .error e => .error e
  | .ok ratingHtml =>
    .ok ("\n            <div class=\"review-card\">\n                "
      ++ ratingHtml
      ++ "\n                <p class=\"review-quote\">\""
      ++ r.quote
      ++ "\"</p>\n                <p class=\"review-source\">â€” "
      ++ r.source
      ++ "</p>\n            </div>\n            ")

/-- The `for review in reviews` loop accumulating `cards`. -/
def reviewCards : List Review → Except String String
  | [] => .ok ""
  | r :: rest =>
    match reviewCard r with
    | .error e => .error e
    | .ok c =>
      match reviewCards rest with
      | .error e => .error e
      | .ok cs => .ok (c ++ cs)

/-- Embeds `EPKGenerator._generate_reviews`. -/
def generate_reviews (cfg : Config) : Except String String :=
  match cfg.reviews with
  | [] => .ok ""
  | _ =>
    match reviewCards cfg.reviews with
    | .error e => .error e
    | .ok cards =>
      .ok ("\n        <div class=\"section reviews\">\n            <h2>Press & Reviews</h2>\n            <div class=\"review-grid\">\n                "
        ++ cards
        ++ "\n            </div>\n        </div>\n        ")

/-- One festival `<li>` of `_generate_festivals`. -/
def festivalLi (fest : Festival) : String :=
  let selection := if fest.selection_type ≠ "" then " - " ++ fest.selection_type else ""
  "\n                <li style=\"padding: 15px 0; border-bottom: 1px solid #E5E7EB; font-size: 1.1rem;\">\n                    <strong>"
  ++ fest.festival_name ++ "</strong> " ++ fest.year ++ selection
  ++ "\n                </li>\n                "

/-- Embeds `EPKGenerator._generate_festivals`. -/
def generate_festivals (cfg : Config) : String :=
  if cfg.festivals = [] ∧ cfg.awards = [] then ""
  else
    let awardsPart :=
      if cfg.awards ≠ [] then
        "<h3 style=\"text-align: center; margin-bottom: 30px;\">Awards</h3>"
        ++ "<div class=\"laurels\" style=\"margin-bottom: 50px;\">"
        ++ String.join (cfg.awards.map laurelHtml)
        ++ "</div>"
      else ""
    let festivalsPart :=
      if cfg.festivals ≠ [] then
        "<h3 style=\"text-align: center; margin-bottom: 20px;\">Festival Screenings</h3>"
        ++ "<div style=\"max-width: 800px; margin: 0 auto;\"><ul style=\"list-style: none; padding: 0;\">"
        ++ String.join (cfg.festivals.map festivalLi)
        ++ "</ul></div>"
      else ""
    let content := awardsPart ++ festivalsPart
    if content ≠ "" then
      "\n        <div class=\"section\">\n            <div style=\"page-break-inside: avoid;\">\n                <h2>Festivals & Awards</h2>\n                "
      ++ content
      ++ "\n            </div>\n        </div>\n        "
    else ""

/-- One press item of `_generate_press`. -/
def pressItemHtml (item : PressItem) : String :=
  let urlHtml :=
    if item.url ≠ "" then
      "<a href=\"" ++ item.url
      ++ "\" target=\"_blank\" style=\"color: inherit; text-decoration: none; border-bottom: 2px solid currentColor;\">Read Article â†’</a>"
    else ""
  "\n            <div style=\"background: #F9FAFB; padding: 25px; border-radius: 8px; border-left: 4px solid #3B82F6; margin-bottom: 20px;\">\n                <div style=\"font-size: 0.9rem; color: #6B7280; margin-bottom: 10px; text-transform: uppercase;\">\n                    "
  ++ item.publication ++ " â€¢ " ++ item.date
  ++ "\n                </div>\n                <h4 style=\"font-size: 1.3rem; margin-bottom: 15px;\">"
  ++ item.title
  ++ "</h4>\n                "
  ++ (if item.excerpt ≠ "" then
        "<p style=\"margin-bottom: 15px; line-height: 1.6;\">" ++ item.excerpt ++ "</p>"
      else "")
  ++ "\n                "
  ++ urlHtml
  ++ "\n            </div>\n            "

/-- Embeds `EPKGenerator._generate_press`. -/
def generate_press (cfg : Config) : String :=
  match cfg.press_coverage with
  | [] => ""
  | _ =>
    "\n        <div class=\"section\">\n            <h2>Press Coverage</h2>\n            <div style=\"max-width: 900px; margin: 0 auto;\">\n                "
    ++ String.join (cfg.press_coverage.map pressItemHtml)
    ++ "\n            </div>\n        </div>\n        "

/-- One team member of `_generate_team`. -/
def memberHtml (a : Assets) (projectDir : List String) (forPdf : Bool) (m : Member) : String :=
  let photoHtml :=
    match teamPhotoRef a projectDir forPdf m with
    | some p => "<img src=\"" ++ p ++ "\" alt=\"" ++ m.name ++ "\" class=\"team-photo\">"
    | none => ""
  "\n            <div class=\"team-member\">\n                "
  ++ photoHtml
  ++ "\n                <h3 class=\"member-name\">"
  ++ m.name
  ++ "</h3>\n                <p class=\"member-role\">"
  ++ m.role
  ++ "</p>\n                "
  ++ (if m.bio ≠ "" then "<p class=\"member-bio\">" ++ m.bio ++ "</p>" else "")
  ++ "\n            </div>\n            "

/-- Embeds `EPKGenerator._generate_team`. -/
def generate_team (cfg : Config) (a : Assets) (projectDir : List String) (forPdf : Bool) : String :=
  match cfg.team with
  | [] => ""
  | _ =>
    "\n        <div class=\"section\">\n            <div style=\"page-break-inside: avoid;\">\n                <h2>Cast & Crew</h2>\n                <div class=\"team-grid\">\n                    "
    ++ String.join (cfg.team.map (memberHtml a projectDir forPdf))
    ++ "\n                </div>\n            </div>\n        </div>\n        "

/-- Embeds `EPKGenerator._generate_distribution`. -/
def generate_distribution (cfg : Config) : String :=
  match cfg.distribution with
  | none => ""
  | some dist =>
    let datesPart :=
      if dist.theatrical_release ≠ "" ∨ dist.digital_release ≠ "" then
        "<div style=\"background: linear-gradient(135deg, #667EEA 0%, #764BA2 100%); color: white; padding: 40px; border-radius: 12px; text-align: center; margin-bottom: 30px;\">"
        ++ (if dist.theatrical_release ≠ "" then
              "<div style=\"font-size: 1.5rem; font-weight: 700; margin-bottom: 10px;\">THEATRICAL RELEASE</div>"
              ++ "<div style=\"font-size: 2rem; margin-bottom: 20px;\">" ++ dist.theatrical_release ++ "</div>"
            else "")
        ++ (if dist.digital_release ≠ "" then
              "<div style=\"font-size: 1.5rem; font-weight: 700; margin-bottom: 10px;\">DIGITAL RELEASE</div>"
              ++ "<div style=\"font-size: 2rem;\">" ++ dist.digital_release ++ "</div>"
            else "")
        ++ "</div>"
      else ""
    let platformsPart :=
      if dist.platforms ≠ [] then
        "<div style=\"text-align: center; margin-bottom: 30px;\">"
        ++ "<h3 style=\"font-size: 1.5rem; margin-bottom: 20px;\">Available On</h3>"
        ++ "<div style=\"display: flex; flex-wrap: wrap; gap: 15px; justify-content: center;\">"
        ++ String.join (dist.platforms.map (fun platform =>
             "<div style=\"background: #1F2937; color: white; padding: 15px 30px; border-radius: 8px; font-weight: 600;\">"
             ++ platform ++ "</div>"))
        ++ "</div></div>"
      else ""
    let content :=
      "<div style=\"max-width: 800px; margin: 0 auto;\">" ++ datesPart ++ platformsPart ++ "</div>"
    "\n        <div class=\"section\">\n            <h2>Distribution & Availability</h2>\n            "
    ++ content
    ++ "\n        </div>\n        "

/-- One row of `_generate_technical` (skipped for a falsy value). -/
def specRow (label value : String) : String :=
  if value ≠ "" then
    "\n                <div class=\"spec-row\">\n                    <span class=\"spec-label\">"
    ++ label
    ++ "</span>\n                    <span class=\"spec-value\">"
    ++ value
    ++ "</span>\n                </div>\n                "
  else ""

/-- Embeds `EPKGenerator._generate_technical`. -/
def generate_technical (cfg : Config) : String :=
  let meta := cfg.metadata
  let tech := cfg.technical
  let rows :=
    specRow "Runtime" meta.runtime ++ specRow "Genre" meta.genre
    ++ specRow "Rating" meta.rating ++ specRow "Language" meta.language
    ++ specRow "Country" meta.country ++ specRow "Release Date" meta.release_date
    ++ specRow "Aspect Ratio" tech.aspect_ratio ++ specRow "Sound" tech.sound
    ++ specRow "Color" tech.color
  "\n        <div class=\"section\">\n            <h2>Technical Information</h2>\n            <div class=\"tech-specs\">\n                "
  ++ rows
  ++ "\n            </div>\n        </div>\n        "

/-- Embeds `EPKGenerator._generate_gallery`. -/
def generate_gallery (a : Assets) (projectDir : List String) (forPdf : Bool) : String :=
  match a.stillsDir with
  | none => ""
  | some _ =>
    match galleryStills a with
    | [] => ""
    | stills =>
      "\n        <div class=\"section\">\n            <h2>Production Stills</h2>\n            <div class=\"stills-gallery\">\n                "
      ++ String.join (stills.map (fun still =>
           "<img src=\"" ++ stillRef projectDir forPdf still ++ "\" alt=\"Still\" class=\"still-img\">"))
      ++ "\n            </div>\n        </div>\n        "

/-- Models `Path.suffix` of pathlib: the final extension including its dot, when
the last dot is neither the first nor the last character of the name. -/
def pySuffix (name : String) : String :=
  let cs := name.data
  match cs.reverse.findIdx? (· = '.') with
  | none => ""
  | some j =>
    let i := cs.length - 1 - j
    if 0 < i ∧ i < cs.length - 1 then String.mk (cs.drop i) else ""

/-- The icon dict lookup of `_generate_downloads` on `ext[1:]`. -/
def iconFor (name : String) : String :=
  let key := String.mk (pyLower (pySuffix name)).data.tail
  if key = "jpg" then "ðŸ–¼ï¸\u008F"
  else if key = "png" then "ðŸ–¼ï¸\u008F"
  else if key = "pdf" then "ðŸ“„"
  else if key = "mp4" then "ðŸŽ¬"
  else if key = "zip" then "ðŸ“¦"
  else "ðŸ“Ž"

/-- Formatting `f"\x7bsize_mb:.1f\x7d"` for `size` bytes: the byte count over 2^20,
rounded half-to-even to one decimal place. -/
def fmtMB (size : Nat) : String :=
  let n := size * 10
  let d := 1048576
  let q := n / d
  let r := n % d
  let t :=
    if d < 2 * r then q + 1
    else if 2 * r < d then q
    else if q % 2 = 0 then q else q + 1
  toString (t / 10) ++ "." ++ toString (t % 10)

/-- One download item of `_generate_downloads`. -/
def downloadItemHtml (projectDir : List String) (forPdf : Bool) (f : DownloadFile) : String :=
  "\n            <a href=\""
  ++ downloadRef projectDir forPdf f
  ++ "\" download style=\"display: flex; align-items: center; padding: 20px; background: #F9FAFB; border-radius: 8px; margin-bottom: 15px; text-decoration: none; color: inherit;\">\n                <span style=\"font-size: 2rem; margin-right: 20px;\">"
  ++ iconFor f.name
  ++ "</span>\n                <div style=\"flex: 1;\">\n                    <div style=\"font-weight: 600; font-size: 1.1rem; margin-bottom: 5px;\">"
  ++ f.name
  ++ "</div>\n                    <div style=\"font-size: 0.9rem; color: #6B7280;\">"
  ++ fmtMB f.size
  ++ " MB</div>\n                </div>\n                <span style=\"font-size: 1.5rem;\">â¬‡ï¸\u008F</span>\n            </a>\n            "

/-- Embeds `EPKGenerator._generate_downloads`. -/
def generate_downloads (a : Assets) (projectDir : List String) (forPdf : Bool) : String :=
  match a.downloadsDir with
  | none => ""
  | some _ =>
    match downloadFiles a with
    | [] => ""
    | files =>
      "\n        <div class=\"section\">\n            <h2>Download Press Materials</h2>\n            <div style=\"max-width: 700px; margin: 0 auto;\">\n                "
      ++ String.join (files.map (downloadItemHtml projectDir forPdf))
      ++ "\n            </div>\n        </div>\n        "

/-- Embeds `EPKGenerator._generate_contact`. -/
def generate_contact (cfg : Config) : String :=
  let contact := cfg.contact
  "\n        <div class=\"section contact\">\n            <h2>Contact</h2>\n            <div class=\"contact-info\">\n                <p><strong>Distribution:</strong> "
  ++ (if contact.distribution_company = "" then "Filmhub" else contact.distribution_company)
  ++ "</p>\n                "
  ++ (if contact.name ≠ "" then "<p><strong>Contact:</strong> " ++ contact.name ++ "</p>" else "")
  ++ "\n                <p><strong>Email:</strong> <a href=\"mailto:"
  ++ contact.email
  ++ "\" class=\"contact-link\">"
  ++ contact.email
  ++ "</a></p>\n                "
  ++ (if contact.phone ≠ "" then "<p><strong>Phone:</strong> " ++ contact.phone ++ "</p>" else "")
  ++ "\n                "
  ++ (if contact.website ≠ "" then
        "<p><strong>Website:</strong> <a href=\"" ++ contact.website
        ++ "\" class=\"contact-link\" target=\"_blank\">" ++ contact.website ++ "</a></p>"
      else "")
  ++ "\n            </div>\n        </div>\n        "

/-- Everything of the `generate_html` document before the first section. -/
def docShellStart (cfg : Config) (colors : Colors) : String :=
  "<!DOCTYPE html>\n<html lang=\"en\">\n<head>\n    <meta charset=\"UTF-8\">\n    <meta name=\"viewport\" content=\"width=device-width, initial-scale=1.0\">\n    <title>"
  ++ (if cfg.metadata.title = "" then "Film" else cfg.metadata.title)
  ++ " - Electronic Press Kit</title>\n    <meta name=\"description\" content=\""
  ++ cfg.metadata.logline
  ++ "\">\n    <style>"
  ++ generate_css colors
  ++ "</style>\n</head>\n<body>\n    <div class=\"container\">\n        "

/-- Everything of the `generate_html` document after the last section. -/
def docShellEnd : String := "\n    </div>\n</body>\n</html>"

/-- Embeds `EPKGenerator.generate_html`: the whole document, with the eleven
sections in the fixed source order; the `ValueError` a malformed review
rating raises propagates. -/
def generate_html (cfg : Config) (a : Assets) (projectDir : List String) (forPdf : Bool) : Except String String :=
  let colors := get_colors_for_genre (pyLower cfg.metadata.genre)
  match generate_reviews cfg with
  | .error e => .error e
  | .ok reviewsHtml =>
    .ok (docShellStart cfg colors
      ++ generate_cover cfg a projectDir forPdf
      ++ "\n        " ++ generate_synopsis cfg
      ++ "\n        " ++ reviewsHtml
      ++ "\n        " ++ generate_festivals cfg
      ++ "\n        " ++ generate_press cfg
      ++ "\n        " ++ generate_team cfg a projectDir forPdf
      ++ "\n        " ++ generate_distribution cfg
      ++ "\n        " ++ generate_technical cfg
      ++ "\n        " ++ generate_gallery a projectDir forPdf
      ++ "\n        " ++ generate_downloads a projectDir forPdf
      ++ "\n        " ++ generate_contact cfg
      ++ docShellEnd)

/-- Join strings with a separator (used to state the fixed section order
of the document). -/
def sepJoin (sep : String) : List String → String
  | [] => ""
  | [s] => s
  | s :: rest => s ++ sep ++ sepJoin sep rest

/-- A document whose body is the given sections in order, separated by the
template whitespace of `generate_html`. -/
def docOf (cfg : Config) (colors : Colors) (sections : List String) : String :=
  docShellStart cfg colors ++ sepJoin "\n        " sections ++ docShellEnd

/-! ## Batch orchestration (`BatchProcessor`) -/

/-- One batch entry, the `result` dict of `_process_single`. -/
structure BResult where
  film : String
  success : Bool
  html_path : Option String
  pdf_path : Option String
  errors : List String
  warnings : List String
deriving Repr, DecidableEq

/-- A discovered project: its directory name, the absolute directory
components, the outcome of `load_config` (reading the JSON may raise), and
its asset tree. -/
structure Project where
  name : String
  dir : List String
  configLoad : Except String Config
  assets : Assets

/-- Embeds `BatchProcessor._process_single` with PDF backends unavailable
(`generate_pdf` then returns `None` and never raises: its exceptions are
caught internally).  A `load_config` failure or a `generate_html` failure
is caught by the surrounding `try`, appending the exception text to the
errors of the result; a validation failure stops before generation. -/
def processSingle (pil : Bool) (p : Project) : BResult :=
  match p.configLoad with
  | .error e =>
    { film := p.name, success := false, html_path := none, pdf_path := none,
      errors := [e], warnings := [] }
  | .ok cfg =>
    let v := validate_assets cfg p.assets pil
    if v.is_valid = false then
      { film := p.name, success := false, html_path := none, pdf_path := none,
        errors := v.errors, warnings := v.warnings }
    else
      match generate_html cfg p.assets p.dir false with
      | .error e =>
        { film := p.name, success := false, html_path := none, pdf_path := none,
          errors := v.errors ++ [e], warnings := v.warnings }
      | .ok _ =>
        { film := p.name, success := true,
          html_path := some (uriPath (p.dir ++ ["output", "html", "index.html"])),
          pdf_path := none, errors := v.errors, warnings := v.warnings }

/-- Embeds `BatchProcessor.process_all` over the discovered projects. -/
def process_all (pil : Bool) (projects : List Project) : List BResult :=
  projects.map (processSingle pil)

/-- The `total` count of `_print_summary`. -/
def summaryTotal (rs : List BResult) : Nat := rs.length

/-- The `successful` count of `_print_summary`. -/
def summarySuccessful (rs : List BResult) : Nat := rs.countP (fun r => r.success)

/-- The `failed` count of `_print_summary`. -/
def summaryFailed (rs : List BResult) : Nat := summaryTotal rs - summarySuccessful rs

/-! ## Derived predicates used by the statements below -/

/-- The first matched poster is low-resolution or unreadable (the two
conditions under which the poster block emits a warning when PIL is
available). -/
def badPoster (a : Assets) : Bool :=
  match posterMatches a with
  | [] => false
  | f :: _ =>
    match f.dims with
    | .error _ => true
    | .ok (w, h) => w < 1000 || h < 1500

/-- A still whose dimensions are readable with width at least 1280. -/
def stillWellSized (f : ImgFile) : Bool :=
  match f.dims with
  | .ok (w, _) => 1280 ≤ w
  | .error _ => false

/-- Recognises the low-resolution still warning (it is the only warning
text of `validate_assets` that begins with the six letters `Still` and a quote). -/
def isLowResStillWarn (w : String) : Bool := strStarts "Still \x27" w

/-- Everything the `_generate_cover` template emits before the laurels slot. -/
def coverPre (cfg : Config) (a : Assets) (projectDir : List String) (forPdf : Bool) : String :=
  let meta := cfg.metadata
  let posterHtml :=
    match posterRef a projectDir forPdf with
    | some p => "<img src=\"" ++ p ++ "\" alt=\"Poster\">"
    | none => ""
  let titleMargin := if forPdf then "margin-bottom: 10px;" else ""
  let taglineMargin := if forPdf then "margin-bottom: 15px;" else ""
  let metaMargin := if forPdf then "margin-top: 10px;" else ""
  "\n        <div class=\"cover\">\n            <div class=\"cover-content\">\n                <div class=\"poster-container\">\n                    "
  ++ posterHtml
  ++ "\n                </div>\n                <h1 class=\"film-title\" style=\""
  ++ titleMargin ++ "\">" ++ meta.title
  ++ "</h1>\n                "
  ++ (if meta.tagline ≠ "" then
        "<p class=\"tagline\" style=\"" ++ taglineMargin ++ "\">" ++ meta.tagline ++ "</p>"
      else "")
  ++ "\n                <p class=\"film-meta\" style=\"" ++ metaMargin
  ++ "\">\n                    "
  ++ meta.genre ++ " | " ++ meta.runtime ++ " | "
  ++ (if meta.rating = "" then "NR" else meta.rating)
  ++ "\n                </p>\n                "

/-- Everything the `_generate_cover` template emits after the laurels slot. -/
def coverPost : String := "\n            </div>\n        </div>\n        "

/-! ## Helper lemmas on the string primitives -/

@[simp]
theorem lStarts_nil (l : List Char) : lStarts [] l = true := rfl

@[simp]
theorem lStarts_cons_nil (a : Char) (as : List Char) : lStarts (a :: as) [] = false := rfl

@[simp]
theorem lStarts_cons_cons (a b : Char) (as bs : List Char) :
    lStarts (a :: as) (b :: bs) = (a == b && lStarts as bs) := rfl

theorem lStarts_append_self (p t : List Char) : lStarts p (p ++ t) = true := by
  induction p with
  | nil => rfl
  | cons a as ih => simp [ih]

theorem lStarts_append_left (p a b : List Char) (h : p.length ≤ a.length) :
    lStarts p (a ++ b) = lStarts p a := by
  induction p generalizing a with
  | nil => simp
  | cons c cs ih =>
    cases a with
    | nil => exact absurd h (by simp)
    | cons d ds =>
      simp only [List.cons_append, lStarts_cons_cons]
      rw [ih ds (Nat.le_of_succ_le_succ (by simpa using h))]

@[simp]
theorem lHasSub_nil (p : List Char) : lHasSub p [] = p.isEmpty := rfl

@[simp]
theorem lHasSub_cons (p : List Char) (b : Char) (bs : List Char) :
    lHasSub p (b :: bs) = (lStarts p (b :: bs) || lHasSub p bs) := rfl

theorem lHasSub_of_lStarts (p l : List Char) (h : lStarts p l = true) :
    lHasSub p l = true := by
  cases l with
  | nil => cases p with
    | nil => rfl
    | cons a as => exact absurd h (by simp)
  | cons b bs => simp [h]

theorem lHasSub_append_left (p x y : List Char) (h : lHasSub p y = true) :
    lHasSub p (x ++ y) = true := by
  induction x with
  | nil => simpa using h
  | cons c cs ih => simp [ih]

/-! ## C8: `is_valid` is exactly "errors is empty" -/

/-- C8.  Every `ValidationResult` produced by `validate_assets` satisfies
`is_valid = true` exactly when its error list is empty, and warnings play
no part: with a loadable configuration that validates, `_process_single`
proceeds to generation whatever the warnings are, so its success is
exactly that of `generate_html`. -/
theorem validate_assets_is_valid_iff_errors_nil :
    (∀ (cfg : Config) (a : Assets) (pil : Bool),
      ((validate_assets cfg a pil).is_valid = true ↔ (validate_assets cfg a pil).errors = []))
    ∧ (∀ (pil : Bool) (p : Project) (cfg : Config),
        p.configLoad = .ok cfg →
        (validate_assets cfg p.assets pil).is_valid = true →
        (processSingle pil p).success = (generate_html cfg p.assets p.dir false).isOk) := by
  constructor
  · intro cfg a pil
    have h : (validate_assets cfg a pil).is_valid = (validate_assets cfg a pil).errors.isEmpty := rfl
    rw [h, List.isEmpty_iff]
  · intro pil p cfg hload hvalid
    unfold processSingle
    rw [hload]
    simp only [hvalid]
    cases hg : generate_html cfg p.assets p.dir false <;> simp [Except.isOk, Except.toBool]

/-- Witness for C8 at a concrete project that validates with a warning
(short synopsis) and generates successfully. -/
theorem validate_assets_is_valid_iff_errors_nil_witness :
    (processSingle true
      { name := "demo", dir := ["projects", "demo"],
        configLoad := .ok
          { metadata := { title := "T", logline := "L", synopsis := "S", genre := "drama",
                          runtime := "90 minutes" },
            contact := { email := "a@b.c" } },
        assets := { postersDir := some [{ name := "poster.jpg", dims := .ok (2000, 3000) }],
                    stillsDir := some [] } }).success = true := by
  have h := validate_assets_is_valid_iff_errors_nil.2 true
    { name := "demo", dir := ["projects", "demo"],
      configLoad := .ok
        { metadata := { title := "T", logline := "L", synopsis := "S", genre := "drama",
                        runtime := "90 minutes" },
          contact := { email := "a@b.c" } },
      assets := { postersDir := some [{ name := "poster.jpg", dims := .ok (2000, 3000) }],
                  stillsDir := some [] } }
    { metadata := { title := "T", logline := "L", synopsis := "S", genre := "drama",
                    runtime := "90 minutes" },
      contact := { email := "a@b.c" } }
    rfl (by decide)
  rw [h]
  decide

/-! ## C2: one error per missing required metadata field -/

/-- The required-field loop unfolded into its five possible errors. -/
theorem requiredFieldErrors_eq (m : Metadata) :
    requiredFieldErrors m =
      (if m.title = "" then ["Missing required field: Film title"] else [])
      ++ (if m.logline = "" then ["Missing required field: Logline"] else [])
      ++ (if m.synopsis = "" then ["Missing required field: Synopsis"] else [])
      ++ (if m.genre = "" then ["Missing required field: Genre"] else [])
      ++ (if m.runtime = "" then ["Missing required field: Runtime"] else []) := by
  by_cases h1 : m.title = "" <;> by_cases h2 : m.logline = "" <;>
    by_cases h3 : m.synopsis = "" <;> by_cases h4 : m.genre = "" <;>
    by_cases h5 : m.runtime = "" <;>
    simp [requiredFieldErrors, h1, h2, h3, h4, h5]

/-- The poster block contributes either no error or exactly the one
poster error. -/
theorem posterChecks_fst_cases (a : Assets) (pil : Bool) :
    (posterChecks a pil).1 = [] ∨ (posterChecks a pil).1 = ["Poster image required (JPG or PNG)"] := by
  rcases hp : a.postersDir with _ | fs
  · simp [posterChecks, hp]
  · rcases hf : fs.filter (fun f => matchesImgGlob f.name) with _ | ⟨f, rest⟩
    · simp [posterChecks, hp, hf]
    · cases pil
      · simp [posterChecks, hp, hf]
      · rcases hd : f.dims with e | ⟨w, h⟩
        · simp [posterChecks, hp, hf, hd]
        · simp only [posterChecks, hp, hf, hd]
          by_cases hw : w < 1000 ∨ h < 1500 <;> simp [hw]

/-- The error list of `validate_assets`, unfolded. -/
theorem validate_assets_errors (cfg : Config) (a : Assets) (pil : Bool) :
    (validate_assets cfg a pil).errors =
      requiredFieldErrors cfg.metadata ++ (posterChecks a pil).1
      ++ (if cfg.contact.email = "" then ["Contact email required"] else []) := rfl

/-- C2.  For every configuration, each of the five required metadata
fields contributes exactly one `Missing required field` error when it is
missing and none when it is present, and `is_valid` is `false` whenever
any of the five is missing. -/
theorem validate_assets_required_field_errors (cfg : Config) (a : Assets) (pil : Bool) :
    ((validate_assets cfg a pil).errors.count "Missing required field: Film title"
        = if cfg.metadata.title = "" then 1 else 0)
    ∧ ((validate_assets cfg a pil).errors.count "Missing required field: Logline"
        = if cfg.metadata.logline = "" then 1 else 0)
    ∧ ((validate_assets cfg a pil).errors.count "Missing required field: Synopsis"
        = if cfg.metadata.synopsis = "" then 1 else 0)
    ∧ ((validate_assets cfg a pil).errors.count "Missing required field: Genre"
        = if cfg.metadata.genre = "" then 1 else 0)
    ∧ ((validate_assets cfg a pil).errors.count "Missing required field: Runtime"
        = if cfg.metadata.runtime = "" then 1 else 0)
    ∧ ((cfg.metadata.title = "" ∨ cfg.metadata.logline = "" ∨ cfg.metadata.synopsis = ""
        ∨ cfg.metadata.genre = "" ∨ cfg.metadata.runtime = "") →
        (validate_assets cfg a pil).is_valid = false) := by
  have hposter : ∀ msg : String, msg ≠ "Poster image required (JPG or PNG)" →
      (posterChecks a pil).1.count msg = 0 := by
    intro msg hne
    rcases posterChecks_fst_cases a pil with h | h <;> rw [h]
    · rfl
    · simp [List.count_cons, hne]
  have hcontact : ∀ msg : String, msg ≠ "Contact email required" →
      (if cfg.contact.email = "" then ["Contact email required"] else []).count msg = 0 := by
    intro msg hne
    split
    · simp [List.count_cons, hne]
    · rfl
  have hone : ∀ (c : Prop) [Decidable c] (msg : String),
      (if c then [msg] else []).count msg = if c then 1 else 0 := by
    intro c _ msg
    split <;> simp
  have hzero : ∀ (c : Prop) [Decidable c] (msg other : String), msg ≠ other →
      (if c then [other] else []).count msg = 0 := by
    intro c _ msg other hne
    split
    · simp [List.count_cons, hne]
    · rfl
  refine ⟨?_, ?_, ?_, ?_, ?_, ?_⟩
  · rw [validate_assets_errors, requiredFieldErrors_eq]
    simp only [List.count_append]
    rw [hone, hzero _ _ _ (by decide), hzero _ _ _ (by decide), hzero _ _ _ (by decide),
        hzero _ _ _ (by decide), hposter _ (by decide), hcontact _ (by decide)]
    split <;> rfl
  · rw [validate_assets_errors, requiredFieldErrors_eq]
    simp only [List.count_append]
    rw [hone, hzero _ _ _ (by decide), hzero _ _ _ (by decide), hzero _ _ _ (by decide),
        hzero _ _ _ (by decide), hposter _ (by decide), hcontact _ (by decide)]
    split <;> rfl
  · rw [validate_assets_errors, requiredFieldErrors_eq]
    simp only [List.count_append]
    rw [hone, hzero _ _ _ (by decide), hzero _ _ _ (by decide), hzero _ _ _ (by decide),
        hzero _ _ _ (by decide), hposter _ (by decide), hcontact _ (by decide)]
    split <;> rfl
  · rw [validate_assets_errors, requiredFieldErrors_eq]
    simp only [List.count_append]
    rw [hone, hzero _ _ _ (by decide), hzero _ _ _ (by decide), hzero _ _ _ (by decide),
        hzero _ _ _ (by decide), hposter _ (by decide), hcontact _ (by decide)]
    split <;> rfl
  · rw [validate_assets_errors, requiredFieldErrors_eq]
    simp only [List.count_append]
    rw [hone, hzero _ _ _ (by decide), hzero _ _ _ (by decide), hzero _ _ _ (by decide),
        hzero _ _ _ (by decide), hposter _ (by decide), hcontact _ (by decide)]
    split <;> rfl
  · intro hmiss
    have hmem : ∃ msg, msg ∈ (validate_assets cfg a pil).errors := by
      rw [validate_assets_errors, requiredFieldErrors_eq]
      rcases hmiss with h | h | h | h | h
      · exact ⟨"Missing required field: Film title", by simp [h]⟩
      · exact ⟨"Missing required field: Logline", by simp [h]⟩
      · exact ⟨"Missing required field: Synopsis", by simp [h]⟩
      · exact ⟨"Missing required field: Genre", by simp [h]⟩
      · exact ⟨"Missing required field: Runtime", by simp [h]⟩
    obtain ⟨msg, hmem⟩ := hmem
    have hne : (validate_assets cfg a pil).errors ≠ [] := List.ne_nil_of_mem hmem
    have hv : (validate_assets cfg a pil).is_valid
        = (validate_assets cfg a pil).errors.isEmpty := rfl
    rw [hv]
    rcases hE : (validate_assets cfg a pil).errors with _ | ⟨x, xs⟩
    · exact absurd hE hne
    · rfl

/-- Witness for C2 at a configuration missing the title and genre. -/
theorem validate_assets_required_field_errors_witness :
    ((validate_assets
        { metadata := { logline := "L", synopsis := "S", runtime := "90" },
          contact := { email := "a@b.c" } }
        { postersDir := some [{ name := "p.jpg", dims := .ok (2000, 3000) }] }
        false).errors.count "Missing required field: Film title" = 1)
    ∧ ((validate_assets
        { metadata := { logline := "L", synopsis := "S", runtime := "90" },
          contact := { email := "a@b.c" } }
        { postersDir := some [{ name := "p.jpg", dims := .ok (2000, 3000) }] }
        false).is_valid = false) := by
  have h := validate_assets_required_field_errors
    { metadata := { logline := "L", synopsis := "S", runtime := "90" },
      contact := { email := "a@b.c" } }
    { postersDir := some [{ name := "p.jpg", dims := .ok (2000, 3000) }] }
    false
  refine ⟨?_, h.2.2.2.2.2 (Or.inl rfl)⟩
  have := h.1
  simpa using this

/-! ## C3: a fully-populated configuration validates cleanly -/

/-- With a matched poster present, the poster block emits no error. -/
theorem posterChecks_fst_eq_nil (a : Assets) (pil : Bool) (hp : posterMatches a ≠ []) :
    (posterChecks a pil).1 = [] := by
  unfold posterMatches at hp
  rcases hpd : a.postersDir with _ | fs
  · rw [hpd] at hp
    exact absurd rfl hp
  · rw [hpd] at hp
    rcases hf : fs.filter (fun f => matchesImgGlob f.name) with _ | ⟨f, rest⟩
    · exact absurd hf hp
    · simp only [posterChecks, hpd, hf]
      cases pil
      · simp
      · rcases hd : f.dims with e | ⟨w, h⟩
        · simp [hd]
        · simp only [hd]
          by_cases hw : w < 1000 ∨ h < 1500 <;> simp [hw]

/-- A poster warning is only emitted for a low-resolution or unreadable
first matched poster. -/
theorem badPoster_of_posterChecks_snd (a : Assets) (pil : Bool)
    (h : (posterChecks a pil).2 ≠ []) : badPoster a = true := by
  unfold badPoster posterMatches
  rcases hpd : a.postersDir with _ | fs
  · rw [show posterChecks a pil = (["Poster image required (JPG or PNG)"], [])
        from by simp [posterChecks, hpd]] at h
    exact absurd rfl h
  · rcases hf : fs.filter (fun f => matchesImgGlob f.name) with _ | ⟨f, rest⟩
    · rw [show posterChecks a pil = (["Poster image required (JPG or PNG)"], [])
          from by simp [posterChecks, hpd, hf]] at h
      exact absurd rfl h
    · cases hpil : pil
      · rw [show posterChecks a pil = ([], []) from by simp [posterChecks, hpd, hf, hpil]] at h
        exact absurd rfl h
      · rcases hd : f.dims with e | ⟨w, hgt⟩
        · simp [hpd, hf, hd]
        · by_cases hw : w < 1000 ∨ hgt < 1500
          · simp only [hpd, hf, hd]
            simpa using hw
          · rw [show posterChecks a pil = ([], [])
                from by simp [posterChecks, hpd, hf, hpil, hd, hw]] at h
            exact absurd rfl h

/-- The sampling loop is the first find of an offending still. -/
theorem stillsLoop_eq_find (l : List ImgFile) :
    stillsLoop l = (l.find? stillOffending).map lowResMsg := by
  induction l with
  | nil => rfl
  | cons f rest ih =>
    rcases hd : f.dims with e | ⟨w, h⟩
    · have hoff : stillOffending f = false := by simp [stillOffending, hd]
      have hfind : List.find? stillOffending (f :: rest) = List.find? stillOffending rest := by
        rw [List.find?_cons]
        simp [hoff]
      simp [stillsLoop, hd, hfind, ih]
    · by_cases hw : w < 1280
      · have hoff : stillOffending f = true := by simp [stillOffending, hd, hw]
        have hfind : List.find? stillOffending (f :: rest) = some f := by
          rw [List.find?_cons]
          simp [hoff]
        simp [stillsLoop, hd, hw, hfind]
      · have hoff : stillOffending f = false := by simp [stillOffending, hd, hw]
        have hfind : List.find? stillOffending (f :: rest) = List.find? stillOffending rest := by
          rw [List.find?_cons]
          simp [hoff]
        simp [stillsLoop, hd, hw, hfind, ih]

/-- Well-sized stills are never offending. -/
theorem stillOffending_eq_false_of_wellSized (f : ImgFile) (h : stillWellSized f = true) :
    stillOffending f = false := by
  unfold stillWellSized at h
  rcases hd : f.dims with e | ⟨w, hgt⟩
  · rw [hd] at h
    exact absurd h (by simp)
  · rw [hd] at h
    simp only [decide_eq_true_eq] at h
    simp [stillOffending, hd]
    omega

/-- With a stills directory holding at least eight well-sized matches,
the stills block emits no warning. -/
theorem stillsChecks_eq_nil (a : Assets) (pil : Bool) (l : List ImgFile)
    (hstills : a.stillsDir = some l)
    (h8 : 8 ≤ (l.filter (fun f => matchesImgGlob f.name)).length)
    (hwide : ∀ f ∈ l.filter (fun f => matchesImgGlob f.name), stillWellSized f = true) :
    stillsChecks a pil = [] := by
  have hfind : ((l.filter (fun f => matchesImgGlob f.name)).take 3).find? stillOffending
      = none := by
    apply List.find?_eq_none.mpr
    intro x hx
    have hmem : x ∈ l.filter (fun f => matchesImgGlob f.name) := List.take_subset _ _ hx
    simp [stillOffending_eq_false_of_wellSized x (hwide x hmem)]
  simp only [stillsChecks, hstills]
  rw [if_neg (by omega), stillsLoop_eq_find, hfind]
  simp

/-- C3 counterexample: the claim "warnings non-empty only if the synopsis
is under 200 characters" fails for a configuration that meets every
hypothesis of the claim but has a low-resolution poster: validation is
clean (`is_valid`, no errors), the synopsis has 200 characters, yet the
warnings list is non-empty. -/
theorem validate_assets_clean_counterexample :
    (validate_assets
        { metadata := { title := "T", logline := "L",
                        synopsis := String.mk (List.replicate 200 'a'),
                        genre := "drama", runtime := "90 minutes" },
          contact := { email := "a@b.c" } }
        { postersDir := some [{ name := "poster.jpg", dims := .ok (500, 500) }],
          stillsDir := some
            [{ name := "s1.jpg", dims := .ok (1920, 1080) },
             { name := "s2.jpg", dims := .ok (1920, 1080) },
             { name := "s3.jpg", dims := .ok (1920, 1080) },
             { name := "s4.jpg", dims := .ok (1920, 1080) },
             { name := "s5.jpg", dims := .ok (1920, 1080) },
             { name := "s6.jpg", dims := .ok (1920, 1080) },
             { name := "s7.jpg", dims := .ok (1920, 1080) },
             { name := "s8.jpg", dims := .ok (1920, 1080) }] }
        true).is_valid = true
    ∧ (validate_assets
        { metadata := { title := "T", logline := "L",
                        synopsis := String.mk (List.replicate 200 'a'),
                        genre := "drama", runtime := "90 minutes" },
          contact := { email := "a@b.c" } }
        { postersDir := some [{ name := "poster.jpg", dims := .ok (500, 500) }],
          stillsDir := some
            [{ name := "s1.jpg", dims := .ok (1920, 1080) },
             { name := "s2.jpg", dims := .ok (1920, 1080) },
             { name := "s3.jpg", dims := .ok (1920, 1080) },
             { name := "s4.jpg", dims := .ok (1920, 1080) },
             { name := "s5.jpg", dims := .ok (1920, 1080) },
             { name := "s6.jpg", dims := .ok (1920, 1080) },
             { name := "s7.jpg", dims := .ok (1920, 1080) },
             { name := "s8.jpg", dims := .ok (1920, 1080) }] }
        true).errors = []
    ∧ 200 ≤ (String.mk (List.replicate 200 'a')).length
    ∧ (validate_assets
        { metadata := { title := "T", logline := "L",
                        synopsis := String.mk (List.replicate 200 'a'),
                        genre := "drama", runtime := "90 minutes" },
          contact := { email := "a@b.c" } }
        { postersDir := some [{ name := "poster.jpg", dims := .ok (500, 500) }],
          stillsDir := some
            [{ name := "s1.jpg", dims := .ok (1920, 1080) },
             { name := "s2.jpg", dims := .ok (1920, 1080) },
             { name := "s3.jpg", dims := .ok (1920, 1080) },
             { name := "s4.jpg", dims := .ok (1920, 1080) },
             { name := "s5.jpg", dims := .ok (1920, 1080) },
             { name := "s6.jpg", dims := .ok (1920, 1080) },
             { name := "s7.jpg", dims := .ok (1920, 1080) },
             { name := "s8.jpg", dims := .ok (1920, 1080) }] }
        true).warnings ≠ [] := by
  refine ⟨by decide, by decide, by decide, by decide⟩

/-- C3 (amended).  A configuration with all five required fields, a
matched poster, eight or more well-sized stills and a contact email
validates with `is_valid = true` and no errors, and its warnings are
non-empty only if the synopsis is under 200 characters, or the first
matched poster is low-resolution or unreadable (the latter case is what
the counterexample exhibits and the original claim omits). -/
theorem validate_assets_clean_config (cfg : Config) (a : Assets) (pil : Bool)
    (ht : cfg.metadata.title ≠ "") (hl : cfg.metadata.logline ≠ "")
    (hs : cfg.metadata.synopsis ≠ "") (hg : cfg.metadata.genre ≠ "")
    (hr : cfg.metadata.runtime ≠ "")
    (hp : posterMatches a ≠ [])
    (l : List ImgFile) (hstills : a.stillsDir = some l)
    (h8 : 8 ≤ (l.filter (fun f => matchesImgGlob f.name)).length)
    (hwide : ∀ f ∈ l.filter (fun f => matchesImgGlob f.name), stillWellSized f = true)
    (he : cfg.contact.email ≠ "") :
    (validate_assets cfg a pil).is_valid = true
    ∧ (validate_assets cfg a pil).errors = []
    ∧ ((validate_assets cfg a pil).warnings ≠ [] →
        cfg.metadata.synopsis.length < 200 ∨ badPoster a = true) := by
  have herr : (validate_assets cfg a pil).errors = [] := by
    rw [validate_assets_errors, requiredFieldErrors_eq]
    rw [if_neg ht, if_neg hl, if_neg hs, if_neg hg, if_neg hr, if_neg he,
        posterChecks_fst_eq_nil a pil hp]
    rfl
  have hvalid : (validate_assets cfg a pil).is_valid = true := by
    have hv : (validate_assets cfg a pil).is_valid
        = (validate_assets cfg a pil).errors.isEmpty := rfl
    rw [hv, herr]
    rfl
  refine ⟨hvalid, herr, ?_⟩
  intro hw
  have hwarn : (validate_assets cfg a pil).warnings =
      (posterChecks a pil).2 ++ stillsChecks a pil
      ++ (if cfg.metadata.synopsis ≠ "" ∧ cfg.metadata.synopsis.length < 200 then
            ["Synopsis is short (" ++ toString cfg.metadata.synopsis.length ++
             " chars). Recommended: 200-400 words"]
          else []) := rfl
  rw [hwarn, stillsChecks_eq_nil a pil l hstills h8 hwide] at hw
  by_cases hsyn : cfg.metadata.synopsis ≠ "" ∧ cfg.metadata.synopsis.length < 200
  · exact Or.inl hsyn.2
  · rw [if_neg hsyn] at hw
    simp only [List.append_nil] at hw
    exact Or.inr (badPoster_of_posterChecks_snd a pil hw)

/-- Witness for the amended C3 at a flawless concrete configuration. -/
theorem validate_assets_clean_config_witness :
    (validate_assets
        { metadata := { title := "T", logline := "L",
                        synopsis := String.mk (List.replicate 200 'a'),
                        genre := "drama", runtime := "90 minutes" },
          contact := { email := "a@b.c" } }
        { postersDir := some [{ name := "poster.jpg", dims := .ok (2000, 3000) }],
          stillsDir := some
            [{ name := "s1.jpg", dims := .ok (1920, 1080) },
             { name := "s2.jpg", dims := .ok (1920, 1080) },
             { name := "s3.jpg", dims := .ok (1920, 1080) },
             { name := "s4.jpg", dims := .ok (1920, 1080) },
             { name := "s5.jpg", dims := .ok (1920, 1080) },
             { name := "s6.jpg", dims := .ok (1920, 1080) },
             { name := "s7.jpg", dims := .ok (1920, 1080) },
             { name := "s8.jpg", dims := .ok (1920, 1080) }] }
        true).is_valid = true := by
  exact (validate_assets_clean_config
    { metadata := { title := "T", logline := "L",
                    synopsis := String.mk (List.replicate 200 'a'),
                    genre := "drama", runtime := "90 minutes" },
      contact := { email := "a@b.c" } }
    { postersDir := some [{ name := "poster.jpg", dims := .ok (2000, 3000) }],
      stillsDir := some
        [{ name := "s1.jpg", dims := .ok (1920, 1080) },
         { name := "s2.jpg", dims := .ok (1920, 1080) },
         { name := "s3.jpg", dims := .ok (1920, 1080) },
         { name := "s4.jpg", dims := .ok (1920, 1080) },
         { name := "s5.jpg", dims := .ok (1920, 1080) },
         { name := "s6.jpg", dims := .ok (1920, 1080) },
         { name := "s7.jpg", dims := .ok (1920, 1080) },
         { name := "s8.jpg", dims := .ok (1920, 1080) }] }
    true
    (by decide) (by decide) (by decide) (by decide) (by decide)
    (by decide) _ rfl (by decide) (by decide) (by decide)).1

/-! ## C6: stills warnings, single low-resolution warning, early stop -/

/-- The three possible shapes of the poster block warnings. -/
theorem posterChecks_snd_cases (a : Assets) (pil : Bool) :
    (posterChecks a pil).2 = []
    ∨ (∃ e, (posterChecks a pil).2 = ["Could not validate poster: " ++ e])
    ∨ (∃ (w h : Nat), (posterChecks a pil).2
        = ["Poster resolution low (" ++ toString w ++ "x" ++ toString h ++
           "px). Recommended: 2000x3000px"]) := by
  rcases hp : a.postersDir with _ | fs
  · simp [posterChecks, hp]
  · rcases hf : fs.filter (fun f => matchesImgGlob f.name) with _ | ⟨f, rest⟩
    · simp [posterChecks, hp, hf]
    · cases pil
      · simp [posterChecks, hp, hf]
      · rcases hd : f.dims with e | ⟨w, h⟩
        · simp only [posterChecks, hp, hf, hd]
          exact Or.inr (Or.inl ⟨e, rfl⟩)
        · by_cases hw : w < 1000 ∨ h < 1500
          · refine Or.inr (Or.inr ⟨w, h, ?_⟩)
            simp [posterChecks, hp, hf, hd, hw]
          · refine Or.inl ?_
            simp [posterChecks, hp, hf, hd, hw]

/-- The poster block never emits a still warning. -/
theorem posterChecks_snd_no_still (a : Assets) (pil : Bool) :
    ∀ w ∈ (posterChecks a pil).2, isLowResStillWarn w = false := by
  intro w hw
  rcases posterChecks_snd_cases a pil with h | ⟨e, h⟩ | ⟨wd, ht, h⟩ <;> rw [h] at hw
  · simp at hw
  · rw [List.mem_singleton.mp hw]
    rfl
  · rw [List.mem_singleton.mp hw]
    rfl

/-- The stills block of `validate_assets`, unfolded at an existing stills
directory. -/
theorem stillsChecks_eq (a : Assets) (pil : Bool) (l : List ImgFile)
    (hstills : a.stillsDir = some l) :
    stillsChecks a pil =
      (if (l.filter (fun f => matchesImgGlob f.name)).length < 8 then
         ["Only " ++ toString (l.filter (fun f => matchesImgGlob f.name)).length
          ++ " stills found. Recommended: 8-12"]
       else [])
      ++ (if pil && !(l.filter (fun f => matchesImgGlob f.name)).isEmpty then
            (stillsLoop ((l.filter (fun f => matchesImgGlob f.name)).take 3)).toList
          else []) := by
  simp only [stillsChecks, hstills]

/-- C6.  With an existing stills directory: fewer than eight matched
stills puts the count warning in the warnings; at most one low-resolution
still warning is ever emitted per validation; and the emitted
low-resolution warnings are exactly the message of the first offending
still (readable width below 1280) among the first three samples, and only
when PIL is available and some still matched. -/
theorem validate_assets_stills_warnings (cfg : Config) (a : Assets) (pil : Bool)
    (l : List ImgFile) (hstills : a.stillsDir = some l) :
    ((l.filter (fun f => matchesImgGlob f.name)).length < 8 →
      ("Only " ++ toString (l.filter (fun f => matchesImgGlob f.name)).length
        ++ " stills found. Recommended: 8-12") ∈ (validate_assets cfg a pil).warnings)
    ∧ (validate_assets cfg a pil).warnings.countP isLowResStillWarn ≤ 1
    ∧ ((validate_assets cfg a pil).warnings.filter isLowResStillWarn
        = if pil = true ∧ l.filter (fun f => matchesImgGlob f.name) ≠ [] then
            ((((l.filter (fun f => matchesImgGlob f.name)).take 3).find? stillOffending).map
              lowResMsg).toList
          else []) := by
  have hwarn : (validate_assets cfg a pil).warnings =
      (posterChecks a pil).2 ++ stillsChecks a pil
      ++ (if cfg.metadata.synopsis ≠ "" ∧ cfg.metadata.synopsis.length < 200 then
            ["Synopsis is short (" ++ toString cfg.metadata.synopsis.length ++
             " chars). Recommended: 200-400 words"]
          else []) := rfl
  have hpw0 : (posterChecks a pil).2.countP isLowResStillWarn = 0 :=
    List.countP_eq_zero.mpr (by
      intro w hw
      simp [posterChecks_snd_no_still a pil w hw])
  have hpwf : (posterChecks a pil).2.filter isLowResStillWarn = [] := by
    rw [List.filter_eq_nil_iff]
    intro w hw
    simp [posterChecks_snd_no_still a pil w hw]
  have hcnt0 : ∀ (c : Prop) [Decidable c] (n : Nat),
      (if c then ["Only " ++ toString n ++ " stills found. Recommended: 8-12"]
       else []).countP isLowResStillWarn = 0 := by
    intro c _ n
    split <;> rfl
  have hcntf : ∀ (c : Prop) [Decidable c] (n : Nat),
      (if c then ["Only " ++ toString n ++ " stills found. Recommended: 8-12"]
       else []).filter isLowResStillWarn = [] := by
    intro c _ n
    split <;> rfl
  have hsyn0 : ∀ (c : Prop) [Decidable c] (n : Nat),
      (if c then ["Synopsis is short (" ++ toString n ++ " chars). Recommended: 200-400 words"]
       else []).countP isLowResStillWarn = 0 := by
    intro c _ n
    split <;> rfl
  have hsynf : ∀ (c : Prop) [Decidable c] (n : Nat),
      (if c then ["Synopsis is short (" ++ toString n ++ " chars). Recommended: 200-400 words"]
       else []).filter isLowResStillWarn = [] := by
    intro c _ n
    split <;> rfl
  refine ⟨?_, ?_, ?_⟩
  · intro h8
    rw [hwarn, stillsChecks_eq a pil l hstills]
    have hmem : ("Only " ++ toString (l.filter (fun f => matchesImgGlob f.name)).length
        ++ " stills found. Recommended: 8-12")
        ∈ (if (l.filter (fun f => matchesImgGlob f.name)).length < 8 then
             ["Only " ++ toString (l.filter (fun f => matchesImgGlob f.name)).length
              ++ " stills found. Recommended: 8-12"]
           else []) := by
      rw [if_pos h8]
      exact List.mem_singleton.mpr rfl
    simp only [List.mem_append]
    exact Or.inl (Or.inr (Or.inl hmem))
  · rw [hwarn, stillsChecks_eq a pil l hstills]
    simp only [List.countP_append]
    rw [hpw0, hcnt0, hsyn0]
    have htl : ∀ o : Option String, (Option.toList o).countP isLowResStillWarn ≤ 1 := by
      intro o
      cases o with
      | none => simp
      | some m =>
        by_cases hm : isLowResStillWarn m = true <;>
          simp [List.countP_cons, hm]
    have hloop : (if pil && !(l.filter (fun f => matchesImgGlob f.name)).isEmpty then
          (stillsLoop ((l.filter (fun f => matchesImgGlob f.name)).take 3)).toList
        else []).countP isLowResStillWarn ≤ 1 := by
      split
      · exact htl _
      · simp
    omega
  · rw [hwarn, stillsChecks_eq a pil l hstills]
    simp only [List.filter_append]
    rw [hpwf, hcntf, hsynf]
    simp only [List.append_nil, List.nil_append]
    by_cases hpil : pil = true
    · by_cases hsm : l.filter (fun f => matchesImgGlob f.name) = []
      · rw [if_neg (by simp [hsm]), if_neg (by simp [hsm])]
        rfl
      · rw [if_pos (by simp [hpil, List.isEmpty_iff, hsm]), if_pos ⟨hpil, hsm⟩]
        rw [stillsLoop_eq_find]
        rcases hfind : ((l.filter (fun f => matchesImgGlob f.name)).take 3).find? stillOffending
          with _ | f
        · rw [hfind]
          rfl
        · rw [hfind]
          rfl
    · rw [if_neg (by simp [hpil]), if_neg (by simp [hpil])]
      rfl

/-- Witness for C6 at a stills directory holding one low-resolution still
and one unreadable still. -/
theorem validate_assets_stills_warnings_witness :
    (("Only 2 stills found. Recommended: 8-12")
      ∈ (validate_assets {}
          { stillsDir := some
              [{ name := "a.jpg", dims := .error "broken" },
               { name := "b.jpg", dims := .ok (640, 480) }] }
          true).warnings)
    ∧ (validate_assets {}
        { stillsDir := some
            [{ name := "a.jpg", dims := .error "broken" },
             { name := "b.jpg", dims := .ok (640, 480) }] }
        true).warnings.countP isLowResStillWarn ≤ 1
    ∧ (validate_assets {}
        { stillsDir := some
            [{ name := "a.jpg", dims := .error "broken" },
             { name := "b.jpg", dims := .ok (640, 480) }] }
        true).warnings.filter isLowResStillWarn
      = ["Still \x27b.jpg\x27 resolution low. Recommended: 1920x1080px"] := by
  have h := validate_assets_stills_warnings {}
    { stillsDir := some
        [{ name := "a.jpg", dims := .error "broken" },
         { name := "b.jpg", dims := .ok (640, 480) }] }
    true
    [{ name := "a.jpg", dims := .error "broken" },
     { name := "b.jpg", dims := .ok (640, 480) }]
    rfl
  refine ⟨h.1 (by decide), h.2.1, ?_⟩
  rw [h.2.2]
  decide

/-! ## C5: genre theme selection -/

/-- The genre loop is a first-match lookup over the ordered table. -/
theorem genreLookup_eq_find (l : List (String × Colors)) (g : String) :
    genreLookup l g
      = ((l.find? (fun kv => strHasSub g kv.1)).map Prod.snd).getD DEFAULT_COLORS := by
  induction l with
  | nil => rfl
  | cons kv rest ih =>
    rcases kv with ⟨k, c⟩
    by_cases hk : strHasSub g k = true
    · simp [genreLookup, List.find?_cons, hk]
    · simp only [Bool.not_eq_true] at hk
      simp [genreLookup, List.find?_cons, hk, ih]

/-- C5.  Theme selection is a first-match substring lookup of the
lower-cased genre (`generate_html` lower-cases the genre before the call,
making the match case-insensitive) over the ordered `GENRE_COLORS` table;
a genre containing "horror" in any letter case selects the horror palette
because "horror" is the first table entry, and a genre matching no table
key selects `DEFAULT_COLORS`. -/
theorem get_colors_for_genre_spec (genre : String) :
    (get_colors_for_genre (pyLower genre)
      = ((GENRE_COLORS.find? (fun kv => strHasSub (pyLower genre) kv.1)).map
          Prod.snd).getD DEFAULT_COLORS)
    ∧ (strHasSub (pyLower genre) "horror" = true →
        get_colors_for_genre (pyLower genre) = ⟨"#8B0000", "#2C2C2C", "#FF4444"⟩)
    ∧ ((∀ kv ∈ GENRE_COLORS, strHasSub (pyLower genre) kv.1 = false) →
        get_colors_for_genre (pyLower genre) = DEFAULT_COLORS) := by
  refine ⟨genreLookup_eq_find GENRE_COLORS (pyLower genre), ?_, ?_⟩
  · intro hh
    simp [get_colors_for_genre, GENRE_COLORS, genreLookup, hh]
  · intro hnone
    rw [get_colors_for_genre, genreLookup_eq_find]
    rw [List.find?_eq_none.mpr (by
      intro kv hkv
      simp [hnone kv hkv])]
    rfl

/-- Witness for C5: a genre with upper-case "HORROR" (and a later
"thriller" match) takes the horror palette; an unmatched genre takes the
default palette. -/
theorem get_colors_for_genre_spec_witness :
    get_colors_for_genre (pyLower "Psychological HORROR Thriller")
      = ⟨"#8B0000", "#2C2C2C", "#FF4444"⟩
    ∧ get_colors_for_genre (pyLower "Mockumentary") = DEFAULT_COLORS :=
  ⟨(get_colors_for_genre_spec "Psychological HORROR Thriller").2.1 (by decide),
   (get_colors_for_genre_spec "Mockumentary").2.2 (by decide)⟩

/-! ## C4: optional sections vanish on absent data; fixed section order -/

/-- C4.  Each optional section generator (reviews, team,
festivals/awards, press, distribution) returns the empty string when its
backing data is absent, and the generated document is exactly the shell
around the eleven section strings in the fixed order cover, synopsis,
reviews, festivals/awards, press, team, distribution, technical, gallery,
downloads, contact — so an empty section disappears without disturbing
the order of the rest. -/
theorem generate_html_section_omission (cfg : Config) (a : Assets)
    (projectDir : List String) (forPdf : Bool) :
    (cfg.reviews = [] → generate_reviews cfg = .ok "")
    ∧ (cfg.team = [] → generate_team cfg a projectDir forPdf = "")
    ∧ (cfg.festivals = [] → cfg.awards = [] → generate_festivals cfg = "")
    ∧ (cfg.press_coverage = [] → generate_press cfg = "")
    ∧ (cfg.distribution = none → generate_distribution cfg = "")
    ∧ (∀ reviewsHtml, generate_reviews cfg = .ok reviewsHtml →
        generate_html cfg a projectDir forPdf
          = .ok (docOf cfg (get_colors_for_genre (pyLower cfg.metadata.genre))
              [generate_cover cfg a projectDir forPdf,
               generate_synopsis cfg,
               reviewsHtml,
               generate_festivals cfg,
               generate_press cfg,
               generate_team cfg a projectDir forPdf,
               generate_distribution cfg,
               generate_technical cfg,
               generate_gallery a projectDir forPdf,
               generate_downloads a projectDir forPdf,
               generate_contact cfg])) := by
  refine ⟨?_, ?_, ?_, ?_, ?_, ?_⟩
  · intro h
    simp [generate_reviews, h]
  · intro h
    simp [generate_team, h]
  · intro hf ha
    rw [generate_festivals, if_pos ⟨hf, ha⟩]
  · intro h
    simp [generate_press, h]
  · intro h
    simp [generate_distribution, h]
  · intro reviewsHtml hr
    unfold generate_html
    rw [hr]
    refine congrArg Except.ok ?_
    apply String.ext
    simp only [docOf, sepJoin, String.data_append, List.append_assoc]

/-- Witness for C4 at a configuration with no reviews, team, festivals,
awards, press or distribution data. -/
theorem generate_html_section_omission_witness :
    generate_reviews {} = .ok ""
    ∧ generate_team {} {} ["p"] false = ""
    ∧ generate_festivals {} = ""
    ∧ generate_press {} = ""
    ∧ generate_distribution {} = ""
    ∧ generate_html {} {} ["p"] false
        = .ok (docOf {} (get_colors_for_genre (pyLower (Metadata.genre {})))
            [generate_cover {} {} ["p"] false,
             generate_synopsis {},
             "",
             generate_festivals {},
             generate_press {},
             generate_team {} {} ["p"] false,
             generate_distribution {},
             generate_technical {},
             generate_gallery {} ["p"] false,
             generate_downloads {} ["p"] false,
             generate_contact {}]) := by
  have h := generate_html_section_omission {} {} ["p"] false
  exact ⟨h.1 rfl, h.2.1 rfl, h.2.2.1 rfl rfl, h.2.2.2.1 rfl, h.2.2.2.2.1 rfl,
         h.2.2.2.2.2 "" (h.1 rfl)⟩

/-! ## C9: laurels appear on the HTML cover only -/

/-- The cover is its template around the laurels slot. -/
theorem generate_cover_eq (cfg : Config) (a : Assets) (projectDir : List String) (forPdf : Bool) :
    generate_cover cfg a projectDir forPdf
      = coverPre cfg a projectDir forPdf
        ++ laurelsHtml (cfg.awards.take 4) forPdf ++ coverPost := by
  apply String.ext
  simp [generate_cover, coverPre, coverPost, String.data_append, List.append_assoc]

/-- For a configuration with awards, the HTML-mode cover followed by
anything contains the laurels opening tag. -/
theorem cover_false_has_laurels (cfg : Config) (a : Assets) (projectDir : List String)
    (h4 : cfg.awards.take 4 ≠ []) (t : List Char) :
    lHasSub ("<div class=\"laurels\">").data ((generate_cover cfg a projectDir false).data ++ t)
      = true := by
  have hdata : (generate_cover cfg a projectDir false).data ++ t =
      (coverPre cfg a projectDir false).data
      ++ (("<div class=\"laurels\">").data
          ++ ((String.join ((cfg.awards.take 4).map laurelHtml)).data
              ++ ("</div>".data ++ (coverPost.data ++ t)))) := by
    rw [generate_cover_eq, laurelsHtml, if_pos ⟨h4, rfl⟩]
    simp [String.data_append, List.append_assoc]
  rw [hdata]
  apply lHasSub_append_left
  exact lHasSub_of_lStarts _ _ (lStarts_append_self _ _)

/-- C9.  With a non-empty awards list, the HTML-mode cover (and hence the
HTML-mode document) contains the awards-laurels block, while the PDF-mode
cover is identical to the cover of the same configuration without awards
— the laurels are omitted entirely — and the HTML-mode cover genuinely
differs from its award-less counterpart, so HTML and PDF mode differ in
content, not only in path form. -/
theorem generate_cover_laurels_mode (cfg : Config) (a : Assets) (projectDir : List String)
    (h : cfg.awards ≠ []) :
    strHasSub (generate_cover cfg a projectDir false) "<div class=\"laurels\">" = true
    ∧ (∀ doc, generate_html cfg a projectDir false = .ok doc →
        strHasSub doc "<div class=\"laurels\">" = true)
    ∧ generate_cover cfg a projectDir true
        = generate_cover { cfg with awards := [] } a projectDir true
    ∧ generate_cover cfg a projectDir false
        ≠ generate_cover { cfg with awards := [] } a projectDir false := by
  have h4 : cfg.awards.take 4 ≠ [] := by
    rcases hA : cfg.awards with _ | ⟨x, xs⟩
    · exact absurd hA h
    · simp
  refine ⟨?_, ?_, ?_, ?_⟩
  · have hx := cover_false_has_laurels cfg a projectDir h4 []
    rw [List.append_nil] at hx
    exact hx
  · intro doc hdoc
    rcases hr : generate_reviews cfg with e | r
    · simp only [generate_html, hr] at hdoc
      exact Except.noConfusion hdoc
    · simp only [generate_html, hr, Except.ok.injEq] at hdoc
      unfold strHasSub
      rw [← hdoc]
      simp only [String.data_append, List.append_assoc]
      apply lHasSub_append_left
      exact cover_false_has_laurels cfg a projectDir h4 _
  · have h1 : ∀ l : List Award, laurelsHtml l true = "" := by
      intro l
      rw [laurelsHtml, if_neg]
      intro hc
      exact absurd hc.2 (by simp)
    rw [generate_cover_eq, generate_cover_eq, h1, h1]
    rfl
  · intro heq
    have hlen := congrArg String.length heq
    rw [generate_cover_eq, generate_cover_eq] at hlen
    rw [laurelsHtml, if_pos ⟨h4, rfl⟩] at hlen
    have hz : laurelsHtml (({ cfg with awards := [] } : Config).awards.take 4) false = "" := rfl
    rw [hz] at hlen
    have hpre : coverPre ({ cfg with awards := [] } : Config) a projectDir false
        = coverPre cfg a projectDir false := rfl
    rw [hpre] at hlen
    simp only [String.length_append] at hlen
    have hlit : ("<div class=\"laurels\">" : String).length = 21 := by decide
    have hnil : ("" : String).length = 0 := rfl
    omega

/-- Witness for C9 at a one-award configuration. -/
theorem generate_cover_laurels_mode_witness :
    strHasSub
      (generate_cover
        { awards := [{ festival_name := "Sundance", award := "Jury Award", year := "2025" }] }
        {} ["p"] false)
      "<div class=\"laurels\">" = true
    ∧ generate_cover
        { awards := [{ festival_name := "Sundance", award := "Jury Award", year := "2025" }] }
        {} ["p"] true
      = generate_cover
          { ({ awards := [{ festival_name := "Sundance", award := "Jury Award", year := "2025" }] }
              : Config) with awards := [] }
          {} ["p"] true := by
  have hm := generate_cover_laurels_mode
    { awards := [{ festival_name := "Sundance", award := "Jury Award", year := "2025" }] }
    {} ["p"] (by decide)
  exact ⟨hm.1, hm.2.2.1⟩

/-! ## C1: absolute file URIs for PDF, relative paths for HTML -/

/-- Path splitting never yields an empty component list. -/
theorem splitSlashAux_ne_nil (l acc : List Char) : splitSlashAux acc l ≠ [] := by
  induction l generalizing acc with
  | nil => simp [splitSlashAux]
  | cons c rest ih =>
    by_cases hc : c = '/'
    · simp [splitSlashAux, hc]
    · simpa [splitSlashAux, hc] using ih (c :: acc)

/-- The function `splitPath` never yields an empty component list. -/
theorem splitPath_ne_nil (s : String) : splitPath s ≠ [] := splitSlashAux_ne_nil s.data []

/-- Prefix test across a shared prefix. -/
theorem lStarts_append_both (p q t : List Char) : lStarts (p ++ q) (p ++ t) = lStarts q t := by
  induction p with
  | nil => rfl
  | cons a as ih => simp [ih]

/-- In PDF mode a resolved reference is an absolute file URI and not a
relative path. -/
theorem resolveRef_pdf_uri (projectDir rel : List String) (h : rel ≠ []) :
    strStarts "file:///" (resolveRef true projectDir rel) = true
    ∧ strStarts "../" (resolveRef true projectDir rel) = false := by
  constructor
  · show strStarts "file:///" (fileUri (projectDir ++ rel)) = true
    have hcomps : projectDir ++ rel ≠ [] := by
      intro hc
      exact h (List.append_eq_nil.mp hc).2
    rcases hne : projectDir ++ rel with _ | ⟨c, cs⟩
    · exact absurd hne hcomps
    unfold strStarts fileUri uriPath
    have hsplit : ("file:///" : String).data = ("file://" : String).data ++ ['/'] := rfl
    rw [hsplit, String.data_append, lStarts_append_both]
    simp [String.data_append, lStarts]
  · rfl

/-- In HTML mode a resolved reference is a relative path and not a file
URI. -/
theorem resolveRef_html_rel (projectDir rel : List String) :
    strStarts "../../" (resolveRef false projectDir rel) = true
    ∧ strStarts "file://" (resolveRef false projectDir rel) = false := by
  constructor
  · show strStarts "../../" ("../../" ++ joinPath rel) = true
    unfold strStarts
    rw [String.data_append]
    exact lStarts_append_self _ _
  · rfl

/-- Every emitted asset reference is `resolveRef` at a non-empty relative
component list (the four emission sites of `generate_html`). -/
theorem assetRefs_shape (cfg : Config) (a : Assets) (projectDir : List String) (forPdf : Bool) :
    ∀ r ∈ assetRefs cfg a projectDir forPdf,
      ∃ rel, rel ≠ [] ∧ r = resolveRef forPdf projectDir rel := by
  intro r hr
  unfold assetRefs at hr
  simp only [List.mem_append] at hr
  rcases hr with ((h1 | h2) | h3) | h4
  · have hsome : posterRef a projectDir forPdf = some r := by
      rcases hp : posterRef a projectDir forPdf with _ | p <;> rw [hp] at h1
      · simp at h1
      · have heq : r = p := by simpa using h1
        cases heq
        rfl
    unfold posterRef at hsome
    rcases hm : posterMatches a with _ | ⟨f, rest⟩ <;> rw [hm] at hsome
    · exact absurd hsome (by simp)
    · exact ⟨["assets", "images", "posters", f.name], by simp,
        (Option.some.injEq .. |>.mp hsome).symm⟩
  · obtain ⟨m, hmem, hm⟩ := List.mem_filterMap.mp h2
    unfold teamPhotoRef at hm
    by_cases hcond : m.photo ≠ "" ∧ m.photo ∈ a.existingFiles
    · rw [if_pos hcond] at hm
      exact ⟨splitPath m.photo, splitPath_ne_nil m.photo,
        (Option.some.injEq .. |>.mp hm).symm⟩
    · rw [if_neg hcond] at hm
      exact absurd hm (by simp)
  · obtain ⟨f, hmem, hf⟩ := List.mem_map.mp h3
    exact ⟨["assets", "images", "stills", f.name], by simp, hf.symm⟩
  · obtain ⟨f, hmem, hf⟩ := List.mem_map.mp h4
    exact ⟨["assets", "downloads", f.name], by simp, hf.symm⟩

/-- C1.  Every asset reference `generate_html` emits (poster, team photo,
still, download) is an absolute `file:///` URI and not a relative path in
PDF mode, and a relative `../../` on-disk path and not a file URI in
HTML mode. -/
theorem assetRefs_path_mode (cfg : Config) (a : Assets) (projectDir : List String) :
    (∀ r ∈ assetRefs cfg a projectDir true,
      strStarts "file:///" r = true ∧ strStarts "../" r = false)
    ∧ (∀ r ∈ assetRefs cfg a projectDir false,
      strStarts "../../" r = true ∧ strStarts "file://" r = false) := by
  constructor
  · intro r hr
    obtain ⟨rel, hne, hr'⟩ := assetRefs_shape cfg a projectDir true r hr
    rw [hr']
    exact resolveRef_pdf_uri projectDir rel hne
  · intro r hr
    obtain ⟨rel, hne, hr'⟩ := assetRefs_shape cfg a projectDir false r hr
    rw [hr']
    exact resolveRef_html_rel projectDir rel

/-- Witness for C1 at a project with one poster, one team photo, one
still and one download. -/
theorem assetRefs_path_mode_witness :
    strStarts "file:///"
      "file:///projects/demo/assets/images/posters/p.jpg" = true
    ∧ strStarts "../../" "../../assets/images/posters/p.jpg" = true := by
  have h := assetRefs_path_mode
    { team := [{ name := "Ana", photo := "assets/images/crew/ana.jpg" }] }
    { postersDir := some [{ name := "p.jpg", dims := .ok (2000, 3000) }],
      stillsDir := some [{ name := "s1.jpg", dims := .ok (1920, 1080) }],
      downloadsDir := some [{ name := "kit.pdf", size := 1048576 }],
      existingFiles := ["assets/images/crew/ana.jpg"] }
    ["projects", "demo"]
  exact ⟨(h.1 "file:///projects/demo/assets/images/posters/p.jpg" (by decide)).1,
         (h.2 "../../assets/images/posters/p.jpg" (by decide)).1⟩

/-! ## C10: a non-integer review rating aborts generation -/

/-- C10.  A configuration holding a review whose truthy rating string
does not parse as a decimal integer ("4.5") makes the reviews section —
and hence `generate_html` — raise the `int()` `ValueError` instead of
producing a document. -/
theorem generate_html_rating_exception :
    generate_html
      { metadata := { title := "T", logline := "L", synopsis := "S", genre := "drama",
                      runtime := "90 minutes" },
        reviews := [{ quote := "Great", source := "Mag", rating := "4.5" }],
        contact := { email := "a@b.c" } }
      {} ["p"] false
      = .error "invalid literal for int() with base 10: \x274.5\x27" := by
  decide

/-! ## C7: batch summary counts and failure isolation -/

/-- C7.  A single failing project never aborts the batch: every
discovered project yields a result, the summary counts satisfy
`total = successful + failed`, and in a concrete batch of three projects
where exactly one is missing the contact email the summary is
`successful = 2, failed = 1` where the error list of the failed entry holds
the "Contact email required" message. -/
theorem batch_summary_and_isolation :
    (∀ (pil : Bool) (ps : List Project), (process_all pil ps).length = ps.length)
    ∧ (∀ rs : List BResult, summaryTotal rs = summarySuccessful rs + summaryFailed rs)
    ∧ (let goodCfg : Config :=
         { metadata := { title := "T", logline := "L", synopsis := "S", genre := "drama",
                         runtime := "90 minutes" },
           contact := { email := "a@b.c" } }
       let goodAssets : Assets :=
         { postersDir := some [{ name := "poster.jpg", dims := .ok (2000, 3000) }],
           stillsDir := some [] }
       let p1 : Project :=
         { name := "film1", dir := ["films", "film1"],
           configLoad := .ok goodCfg, assets := goodAssets }
       let p2 : Project :=
         { name := "film2", dir := ["films", "film2"],
           configLoad := .ok goodCfg, assets := goodAssets }
       let p3 : Project :=
         { name := "film3", dir := ["films", "film3"],
           configLoad := .ok { goodCfg with contact := { email := "" } },
           assets := goodAssets }
       summaryTotal (process_all true [p1, p2, p3]) = 3
       ∧ summarySuccessful (process_all true [p1, p2, p3]) = 2
       ∧ summaryFailed (process_all true [p1, p2, p3]) = 1
       ∧ "Contact email required" ∈ (processSingle true p3).errors) := by
  refine ⟨?_, ?_, ?_, ?_, ?_, ?_⟩
  · intro pil ps
    exact List.length_map ps (processSingle pil)
  · intro rs
    have hle : summarySuccessful rs ≤ summaryTotal rs := by
      unfold summarySuccessful summaryTotal
      exact List.countP_le_length _
    unfold summaryFailed
    omega
  · decide
  · decide
  · decide
  · decide

end EPK
